import Mathlib

/-!
# Verification of the curriculum-mapping store against its specification

Shallow embedding of the SQLite-backed storage layer (`SQLiteStorage` in the
server sources) and of the HTTP-route logic that matters for the claims:
full-database export, server-side import validation
(`validateImportDataServer`), full-database import (`importFullDatabase`),
navigation-tab / dropdown-item / table-config CRUD with their cascade deletes,
curriculum-row creation and update, and orphaned-row cleanup.

Modelling conventions:
* SQLite tables become Lean lists of records held in a `Store`; insertion
  appends at the end; `AUTOINCREMENT` id generation is modelled as
  `max of existing ids + 1` (claims never depend on id reuse after deletes).
* `better-sqlite3` statements run eagerly; a thrown constraint error aborts the
  JS control flow but keeps mutations already performed — operations are
  modelled as `Store → ... → Store × Except DbError α` where the returned
  store reflects exactly the statements that ran.  `db.transaction(...)` bodies
  are modelled as `Except DbError Store`: on error the whole transaction rolls
  back and the caller keeps the pre-call store.
* `CURRENT_TIMESTAMP` / `new Date().toISOString()` produce timestamp strings
  the claims never inspect; they are modelled by one opaque constant.
* SQL `ORDER BY` clauses on read queries only permute result lists; the claims
  compare entity sets (ids and field values), so reads return stored order.
* `GROUP_CONCAT(cs.standard_code)` followed by the JS `.split(',')` is modelled
  character-exactly by `joinComma` / `splitComma` on the code lists.
-/

/-- Timestamp strings (`CURRENT_TIMESTAMP`, `new Date().toISOString()`): the
claims never inspect their value, so they are modelled by one constant. -/
def currentTimestamp : String := "1970-01-01T00:00:00.000Z"

/-- A row of the `curriculum_rows` table (no `standards`: the many-to-many
codes live in the `curriculum_standards` junction table). -/
structure DbCurriculumRow where
  id : Nat
  grade : String
  subject : String
  objectives : String
  unitPacing : String
  assessments : String
  materialsAndDifferentiation : String
  biblical : String
  materials : String
  differentiator : String
  tableName : String
deriving DecidableEq

/-- The API-level curriculum row shape (`CurriculumRow` in `@shared/schema`):
a `curriculum_rows` row joined with its list of standard codes. -/
structure ApiCurriculumRow where
  id : Nat
  grade : String
  subject : String
  objectives : String
  unitPacing : String
  assessments : String
  materialsAndDifferentiation : String
  biblical : String
  materials : String
  differentiator : String
  tableName : String
  standards : List String
deriving DecidableEq

/-- A row of the `standards` table. -/
structure Standard where
  id : Nat
  code : String
  description : String
  category : String
deriving DecidableEq

/-- A row of the `curriculum_standards` junction table. -/
structure CsLink where
  curriculumId : Nat
  standardCode : String
deriving DecidableEq

/-- A row of the `navigation_tabs` table. -/
structure NavigationTab where
  id : Nat
  name : String
  displayName : String
  order : Nat
  isActive : Bool
  createdAt : String
  updatedAt : String
deriving DecidableEq

/-- A row of the `dropdown_items` table. -/
structure DropdownItem where
  id : Nat
  tabId : Nat
  name : String
  displayName : String
  order : Nat
  isActive : Bool
  createdAt : String
  updatedAt : String
deriving DecidableEq

/-- A row of the `table_configs` table. -/
structure TableConfig where
  id : Nat
  tabId : Nat
  dropdownId : Nat
  tableName : String
  displayName : String
  order : Nat
  isActive : Bool
  createdAt : String
  updatedAt : String
deriving DecidableEq

/-- A row of the `school_year` table. -/
structure SchoolYear where
  id : Nat
  year : String
  updatedAt : String
deriving DecidableEq

/-- The whole SQLite database. -/
structure Store where
  curriculumRows : List DbCurriculumRow
  csLinks : List CsLink
  standards : List Standard
  navigationTabs : List NavigationTab
  dropdownItems : List DropdownItem
  tableConfigs : List TableConfig
  schoolYearRows : List SchoolYear
deriving DecidableEq

/-- Errors raised by the storage layer.  The source throws `Error` objects
with distinguishing messages; the spec taxonomy maps `adminProtected` to
`ProtectedEntityError` (message `Cannot modify/delete the Admin tab`),
`orderReserved` to `ValidationError` (message `Order index 100 and above are
reserved for system tabs`), `notFound` to `NotFoundError` (message
`Curriculum row not found`), and the SQLite constraint violations
(`pkViolation`, `uniqueViolation`, `fkViolation`) to storage failures. -/
inductive DbError where
  | pkViolation
  | uniqueViolation
  | fkViolation
  | notFound
  | adminProtected
  | orderReserved
deriving DecidableEq

deriving instance DecidableEq for Except

/-! ## GROUP_CONCAT and String.prototype.split -/

/-- `GROUP_CONCAT` over the standard codes of one curriculum row: the codes
joined by single commas (character-level model). -/
def joinComma : List (List Char) → List Char
  | [] => []
  | [x] => x
  | x :: y :: xs => x ++ ',' :: joinComma (y :: xs)

/-- JS `.split(',')` at character level: returns the first comma-free group
and the remaining groups. -/
def splitComma : List Char → List Char × List (List Char)
  | [] => ([], [])
  | c :: cs =>
    let p := splitComma cs
    if c = ',' then ([], p.1 :: p.2) else (c :: p.1, p.2)

/-- All groups produced by `.split(',')`. -/
def splitCommaGroups (s : List Char) : List (List Char) :=
  (splitComma s).1 :: (splitComma s).2

theorem splitComma_append_of_not_comma (x l : List Char) (hx : ',' ∉ x) :
    splitComma (x ++ l) = ((x ++ (splitComma l).1, (splitComma l).2)) := by
  induction x with
  | nil => simp
  | cons c cs ih =>
    have hc : c ≠ ',' := fun h => hx (h ▸ List.mem_cons_self c cs)
    have hcs : ',' ∉ cs := fun h => hx (List.mem_cons_of_mem c h)
    simp [splitComma, ih hcs, hc]

theorem splitCommaGroups_joinComma (l : List (List Char)) (hne : l ≠ [])
    (hnc : ∀ x ∈ l, ',' ∉ x) : splitCommaGroups (joinComma l) = l := by
  induction l with
  | nil => exact absurd rfl hne
  | cons x xs ih =>
    cases xs with
    | nil =>
      have hx : ',' ∉ x := hnc x (List.mem_cons_self x [])
      have := splitComma_append_of_not_comma x [] hx
      simp at this
      simp [splitCommaGroups, joinComma, this, splitComma]
    | cons y ys =>
      have hx : ',' ∉ x := hnc x (List.mem_cons_self _ _)
      have hrest : ∀ z ∈ y :: ys, ',' ∉ z := fun z hz =>
        hnc z (List.mem_cons_of_mem x hz)
      have ihr := ih (by simp) hrest
      have hsplit := splitComma_append_of_not_comma x (',' :: joinComma (y :: ys)) hx
      simp only [splitCommaGroups] at ihr ⊢
      simp [joinComma, hsplit, splitComma] at *
      simp [splitComma, ihr.1, ihr.2]

/-- The standard codes of one curriculum row as read back by
`getAllCurriculumRows`: `GROUP_CONCAT(cs.standard_code)` is `NULL` when the
row has no links (mapped to `[]`), otherwise the comma-joined codes split
again on commas by the JS side. -/
def groupConcatSplit (codes : List String) : List String :=
  if codes.isEmpty then []
  else (splitCommaGroups (joinComma (codes.map String.data))).map
    (fun d => String.mk d)

theorem groupConcatSplit_eq_self (codes : List String)
    (hnc : ∀ c ∈ codes, ',' ∉ c.data) : groupConcatSplit codes = codes := by
  cases codes with
  | nil => rfl
  | cons c cs =>
    have hne : (c :: cs).map String.data ≠ [] := by simp
    have hnc2 : ∀ x ∈ (c :: cs).map String.data, ',' ∉ x := by
      intro x hx
      rcases List.mem_map.mp hx with ⟨s, hs, rfl⟩
      exact hnc s hs
    simp only [groupConcatSplit, List.isEmpty_cons, Bool.false_eq_true,
      if_false]
    rw [splitCommaGroups_joinComma _ hne hnc2, List.map_map]
    have : (fun d => String.mk d) ∘ String.data = id := by
      funext s
      cases s
      rfl
    rw [this, List.map_id]

/-! ## Read queries -/

/-- Id generation: `lastInsertRowid` after an `AUTOINCREMENT` insert.
Modelled as one more than the largest id in the table. -/
def freshId (ids : List Nat) : Nat := ids.foldl max 0 + 1

/-- Codes linked to curriculum row `rid` via `curriculum_standards`. -/
def rowCodes (s : Store) (rid : Nat) : List String :=
  (s.csLinks.filter (fun l => l.curriculumId == rid)).map (fun l => l.standardCode)

/-- One output row of the `getAllCurriculumRows` join: the base row plus its
`GROUP_CONCAT`-and-split standards list. -/
def dbToApi (s : Store) (r : DbCurriculumRow) : ApiCurriculumRow :=
  { id := r.id, grade := r.grade, subject := r.subject,
    objectives := r.objectives, unitPacing := r.unitPacing,
    assessments := r.assessments,
    materialsAndDifferentiation := r.materialsAndDifferentiation,
    biblical := r.biblical, materials := r.materials,
    differentiator := r.differentiator, tableName := r.tableName,
    standards := groupConcatSplit (rowCodes s r.id) }

/-- `SQLiteStorage.getAllCurriculumRows` (the SQL `ORDER BY grade, subject,
id` only permutes; stored order is returned, claims are order-insensitive). -/
def getAllCurriculumRows (s : Store) : List ApiCurriculumRow :=
  s.curriculumRows.map (dbToApi s)

/-- `SQLiteStorage.getAllStandards` (modulo `ORDER BY category, code`). -/
def getAllStandards (s : Store) : List Standard := s.standards

/-- `SQLiteStorage.getAllNavigationTabs` (modulo the Admin-last ordering). -/
def getAllNavigationTabs (s : Store) : List NavigationTab := s.navigationTabs

/-- `SQLiteStorage.getAllDropdownItems` (modulo `ORDER BY`). -/
def getAllDropdownItems (s : Store) : List DropdownItem := s.dropdownItems

/-- `SQLiteStorage.getAllTableConfigs` (modulo `ORDER BY`). -/
def getAllTableConfigs (s : Store) : List TableConfig := s.tableConfigs

/-- `SELECT ... FROM school_year ORDER BY id DESC LIMIT 1`. -/
def lastSchoolYearRow : List SchoolYear → Option SchoolYear :=
  List.foldl
    (fun acc y =>
      match acc with
      | none => some y
      | some a => if a.id < y.id then some y else some a)
    none

/-- `SQLiteStorage.getSchoolYear`: the row with the greatest id; on an empty
table the source inserts and returns a default year (the insert side effect
is not modelled; the exportability invariant keeps the table a singleton). -/
def getSchoolYear (s : Store) : SchoolYear :=
  match lastSchoolYearRow s.schoolYearRows with
  | some y => y
  | none => { id := 1, year := "2025-2026", updatedAt := currentTimestamp }

/-- `SQLiteStorage.getTableConfigById`. -/
def getTableConfigById (s : Store) (id : Nat) : Option TableConfig :=
  s.tableConfigs.find? (fun c => c.id == id)

/-- `SQLiteStorage.getNavigationTabById`. -/
def getNavigationTabById (s : Store) (id : Nat) : Option NavigationTab :=
  s.navigationTabs.find? (fun t => t.id == id)

/-! ## Curriculum-row creation and update -/

/-- `InsertCurriculumRow` (`insertCurriculumRowSchema` in `@shared/schema`):
`materials`, `differentiator` and `tableName` are optional. -/
structure InsertCurriculumRow where
  grade : String
  subject : String
  objectives : String
  unitPacing : String
  assessments : String
  materialsAndDifferentiation : String
  biblical : String
  standards : List String
  materials : Option String
  differentiator : Option String
  tableName : Option String
deriving DecidableEq

/-- One `INSERT INTO curriculum_standards` statement per code, run eagerly:
on a constraint violation (unknown `standard_code` → FOREIGN KEY, repeated
pair → PRIMARY KEY) the loop aborts but earlier inserts persist.  The
`curriculum_id` FOREIGN KEY always holds at the call sites (the row was just
inserted or checked to exist). -/
def insertLinksSeq (s : Store) (rid : Nat) : List String → Store × Option DbError
  | [] => (s, none)
  | c :: rest =>
    if !(s.standards.any (fun st => st.code == c)) then (s, some .fkViolation)
    else if s.csLinks.any (fun l => l.curriculumId == rid && l.standardCode == c) then
      (s, some .pkViolation)
    else
      insertLinksSeq
        { s with csLinks := s.csLinks ++ [{ curriculumId := rid, standardCode := c }] }
        rid rest

/-- `SQLiteStorage.createCurriculumRow`: insert the base row, then insert the
standards links one statement at a time with no enclosing transaction: on a
link failure the error propagates but the base row (and the links inserted so
far) remain in the database. -/
def createCurriculumRow (s : Store) (r : InsertCurriculumRow) :
    Store × Except DbError ApiCurriculumRow :=
  let newId := freshId (s.curriculumRows.map (fun x => x.id))
  let dbRow : DbCurriculumRow :=
    { id := newId, grade := r.grade, subject := r.subject,
      objectives := r.objectives, unitPacing := r.unitPacing,
      assessments := r.assessments,
      materialsAndDifferentiation := r.materialsAndDifferentiation,
      biblical := r.biblical, materials := r.materials.getD "",
      differentiator := r.differentiator.getD "",
      tableName := r.tableName.getD "" }
  let s1 : Store := { s with curriculumRows := s.curriculumRows ++ [dbRow] }
  match insertLinksSeq s1 newId r.standards with
  | (s2, some e) => (s2, .error e)
  | (s2, none) =>
      (s2, .ok
        { id := newId, grade := r.grade, subject := r.subject,
          objectives := r.objectives, unitPacing := r.unitPacing,
          assessments := r.assessments,
          materialsAndDifferentiation := r.materialsAndDifferentiation,
          biblical := r.biblical, materials := r.materials.getD "",
          differentiator := r.differentiator.getD "",
          tableName := r.tableName.getD "", standards := r.standards })

/-- A PATCH body for a curriculum row (`insertCurriculumRowSchema.partial()`):
every field optional, applied only when present. -/
structure CurriculumRowPatch where
  grade : Option String
  subject : Option String
  objectives : Option String
  unitPacing : Option String
  assessments : Option String
  materialsAndDifferentiation : Option String
  biblical : Option String
  standards : Option (List String)
  materials : Option String
  differentiator : Option String
  tableName : Option String
deriving DecidableEq

/-- Whether the patch touches any `curriculum_rows` column (`updates.length >
0` in the source). -/
def CurriculumRowPatch.hasBaseField (p : CurriculumRowPatch) : Bool :=
  p.grade.isSome || p.subject.isSome || p.objectives.isSome ||
  p.unitPacing.isSome || p.assessments.isSome ||
  p.materialsAndDifferentiation.isSome || p.biblical.isSome ||
  p.materials.isSome || p.differentiator.isSome || p.tableName.isSome

/-- Field-by-field application of the dynamic `UPDATE` statement. -/
def applyRowPatch (r : DbCurriculumRow) (p : CurriculumRowPatch) : DbCurriculumRow :=
  { r with
    grade := p.grade.getD r.grade, subject := p.subject.getD r.subject,
    objectives := p.objectives.getD r.objectives,
    unitPacing := p.unitPacing.getD r.unitPacing,
    assessments := p.assessments.getD r.assessments,
    materialsAndDifferentiation :=
      p.materialsAndDifferentiation.getD r.materialsAndDifferentiation,
    biblical := p.biblical.getD r.biblical,
    materials := p.materials.getD r.materials,
    differentiator := p.differentiator.getD r.differentiator,
    tableName := p.tableName.getD r.tableName }

/-- `SQLiteStorage.updateCurriculumRow`: dynamic base-column update (error
`Curriculum row not found` when the id is unknown), then, when `standards` is
supplied, delete the existing links and re-insert the new codes one statement
at a time (again with no enclosing transaction). -/
def updateCurriculumRow (s : Store) (id : Nat) (p : CurriculumRowPatch) :
    Store × Except DbError ApiCurriculumRow :=
  if !(s.curriculumRows.any (fun r => r.id == id)) then (s, .error .notFound)
  else
    let s1 : Store :=
      if p.hasBaseField then
        { s with curriculumRows :=
            s.curriculumRows.map (fun r => if r.id == id then applyRowPatch r p else r) }
      else s
    match p.standards with
    | none =>
        match s1.curriculumRows.find? (fun r => r.id == id) with
        | some r => (s1, .ok (dbToApi s1 r))
        | none => (s1, .error .notFound)
    | some codes =>
        let s2 : Store :=
          { s1 with csLinks := s1.csLinks.filter (fun l => !(l.curriculumId == id)) }
        match insertLinksSeq s2 id codes with
        | (s3, some e) => (s3, .error e)
        | (s3, none) =>
            match s3.curriculumRows.find? (fun r => r.id == id) with
            | some r => (s3, .ok (dbToApi s3 r))
            | none => (s3, .error .notFound)

/-! ## Navigation-tab operations -/

/-- `createNavigationTabSchema`: `name`/`displayName` non-empty, `order` a
non-negative integer. -/
structure CreateNavigationTab where
  name : String
  displayName : String
  order : Nat
deriving DecidableEq

/-- `updateNavigationTabSchema`: every field optional. -/
structure NavTabPatch where
  name : Option String
  displayName : Option String
  order : Option Nat
  isActive : Option Bool
deriving DecidableEq

/-- `SQLiteStorage.createNavigationTab`: rejects `order >= 100` (reserved for
system tabs) before inserting; the `name` column is UNIQUE, so inserting a
duplicate name raises a constraint error. -/
def createNavigationTab (s : Store) (d : CreateNavigationTab) :
    Store × Except DbError NavigationTab :=
  if d.order ≥ 100 then (s, .error .orderReserved)
  else if s.navigationTabs.any (fun t => t.name == d.name) then
    (s, .error .uniqueViolation)
  else
    let t : NavigationTab :=
      { id := freshId (s.navigationTabs.map (fun x => x.id)), name := d.name,
        displayName := d.displayName, order := d.order, isActive := true,
        createdAt := currentTimestamp, updatedAt := currentTimestamp }
    ({ s with navigationTabs := s.navigationTabs ++ [t] }, .ok t)

/-- Field application for the dynamic tab `UPDATE` (sets `updated_at`). -/
def applyTabPatch (t : NavigationTab) (p : NavTabPatch) : NavigationTab :=
  { t with
    name := p.name.getD t.name,
    displayName := p.displayName.getD t.displayName,
    order := p.order.getD t.order, isActive := p.isActive.getD t.isActive,
    updatedAt := currentTimestamp }

/-- `SQLiteStorage.updateNavigationTab`: `null` when the id is unknown,
`ProtectedEntityError` when the target is the Admin tab, `ValidationError`
when an `order >= 100` is supplied, `null` when the patch is empty; the
UNIQUE `name` column makes a rename onto another existing name fail. -/
def updateNavigationTab (s : Store) (id : Nat) (p : NavTabPatch) :
    Store × Except DbError (Option NavigationTab) :=
  match s.navigationTabs.find? (fun t => t.id == id) with
  | none => (s, .ok none)
  | some cur =>
    if cur.name == "Admin" then (s, .error .adminProtected)
    else if p.order.any (fun o => o ≥ 100) then (s, .error .orderReserved)
    else if !(p.name.isSome || p.displayName.isSome || p.order.isSome ||
        p.isActive.isSome) then (s, .ok none)
    else if p.name.any (fun n => s.navigationTabs.any
        (fun t => !(t.id == id) && t.name == n)) then
      (s, .error .uniqueViolation)
    else
      let t := applyTabPatch cur p
      ({ s with navigationTabs :=
          s.navigationTabs.map (fun u => if u.id == id then t else u) },
        .ok (some t))

/-- The `table_name`s of every table config under the dropdown items of one
tab (steps 1–2 of the tab cascade delete). -/
def tabCascadeNames (s : Store) (id : Nat) : List String :=
  (s.dropdownItems.filter (fun d => d.tabId == id)).flatMap
    (fun d => (s.tableConfigs.filter (fun c => c.dropdownId == d.id)).map
      (fun c => c.tableName))

/-- Steps 3–6 of the tab cascade delete: delete every curriculum row whose
`table_name` equals one of the tab's config names (a global string match,
with the link cascade), then the tab's table configs, dropdown items, and
the tab row itself. -/
def tabCascade (s : Store) (id : Nat) : Store :=
  let names := tabCascadeNames s id
  let kept := s.curriculumRows.filter
    (fun r => !(names.any (fun n => n == r.tableName)))
  { s with
    curriculumRows := kept,
    csLinks := s.csLinks.filter
      (fun l => kept.any (fun r => r.id == l.curriculumId)),
    tableConfigs := s.tableConfigs.filter
      (fun c => !(s.dropdownItems.any
        (fun d => d.tabId == id && d.id == c.dropdownId))),
    dropdownItems := s.dropdownItems.filter (fun d => !(d.tabId == id)),
    navigationTabs := s.navigationTabs.filter (fun u => !(u.id == id)) }

/-- `SQLiteStorage.deleteNavigationTab`: `ProtectedEntityError` for the Admin
tab; otherwise one transaction that (1) lists the dropdown items of the tab,
(2) collects their table configs, (3) deletes every curriculum row whose
`table_name` equals one of those configs (a global string match), (4) deletes
those table configs, (5) the dropdown items, (6) the tab.  Deleting a
curriculum row cascades to its `curriculum_standards` links.  The returned
Bool is `tabDeleted > 0`. -/
def deleteNavigationTab (s : Store) (id : Nat) :
    Store × Except DbError Bool :=
  match s.navigationTabs.find? (fun t => t.id == id) with
  | some t =>
    if t.name == "Admin" then (s, .error .adminProtected)
    else (tabCascade s id, .ok true)
  | none => (tabCascade s id, .ok false)

/-! ## Dropdown-item operations -/

/-- `createDropdownItemSchema`. -/
structure CreateDropdownItem where
  tabId : Nat
  name : String
  displayName : String
  order : Nat
deriving DecidableEq

/-- `SQLiteStorage.createDropdownItem`: the `tab_id` FOREIGN KEY rejects an
unknown tab. -/
def createDropdownItem (s : Store) (d : CreateDropdownItem) :
    Store × Except DbError DropdownItem :=
  if !(s.navigationTabs.any (fun t => t.id == d.tabId)) then
    (s, .error .fkViolation)
  else
    let item : DropdownItem :=
      { id := freshId (s.dropdownItems.map (fun x => x.id)), tabId := d.tabId,
        name := d.name, displayName := d.displayName, order := d.order,
        isActive := true, createdAt := currentTimestamp,
        updatedAt := currentTimestamp }
    ({ s with dropdownItems := s.dropdownItems ++ [item] }, .ok item)

/-- Names of the table configs owned by one dropdown item. -/
def dropdownCascadeNames (s : Store) (id : Nat) : List String :=
  (s.tableConfigs.filter (fun c => c.dropdownId == id)).map
    (fun c => c.tableName)

/-- `SQLiteStorage.deleteDropdownItem`: one transaction that deletes every
curriculum row whose `table_name` matches one of the dropdown item's table
configs (again a global string match), then those configs, then the item. -/
def deleteDropdownItem (s : Store) (id : Nat) : Store × Bool :=
  let names := dropdownCascadeNames s id
  let kept := s.curriculumRows.filter
    (fun r => !(names.any (fun n => n == r.tableName)))
  (({ s with
      curriculumRows := kept,
      csLinks := s.csLinks.filter
        (fun l => kept.any (fun r => r.id == l.curriculumId)),
      tableConfigs := s.tableConfigs.filter (fun c => !(c.dropdownId == id)),
      dropdownItems := s.dropdownItems.filter (fun d => !(d.id == id)) }),
    s.dropdownItems.any (fun d => d.id == id))

/-! ## Table-config operations -/

/-- `createTableConfigSchema`. -/
structure CreateTableConfig where
  tabId : Nat
  dropdownId : Nat
  tableName : String
  displayName : String
  order : Nat
deriving DecidableEq

/-- `SQLiteStorage.createTableConfig`: the `tab_id` and `dropdown_id` FOREIGN
KEYs reject unknown owners; otherwise the config row is inserted. -/
def createTableConfig (s : Store) (d : CreateTableConfig) :
    Store × Except DbError TableConfig :=
  if !(s.navigationTabs.any (fun t => t.id == d.tabId)) then
    (s, .error .fkViolation)
  else if !(s.dropdownItems.any (fun i => i.id == d.dropdownId)) then
    (s, .error .fkViolation)
  else
    let c : TableConfig :=
      { id := freshId (s.tableConfigs.map (fun x => x.id)), tabId := d.tabId,
        dropdownId := d.dropdownId, tableName := d.tableName,
        displayName := d.displayName, order := d.order, isActive := true,
        createdAt := currentTimestamp, updatedAt := currentTimestamp }
    ({ s with tableConfigs := s.tableConfigs ++ [c] }, .ok c)

/-- `SQLiteStorage.deleteTableConfig`: `false` when the id is unknown;
otherwise one transaction that deletes every curriculum row whose
`table_name` equals the config's `tableName` (wherever it lives), then the
config row itself. -/
def deleteTableConfig (s : Store) (id : Nat) : Store × Bool :=
  match getTableConfigById s id with
  | none => (s, false)
  | some cfg =>
    let kept := s.curriculumRows.filter (fun r => !(r.tableName == cfg.tableName))
    (({ s with
        curriculumRows := kept,
        csLinks := s.csLinks.filter
          (fun l => kept.any (fun r => r.id == l.curriculumId)),
        tableConfigs := s.tableConfigs.filter (fun c => !(c.id == id)) }),
      true)

/-- `POST /api/table-configs`: create the config, then look up the owning
dropdown and tab by id and, when both exist, seed one sample curriculum row
(`grade` = tab name, `subject` = dropdown name, `tableName` = the new
config's table name, all content fields empty); a seeding failure is caught
and ignored (`// Sample curriculum row may already exist`). -/
def postTableConfigs (s : Store) (d : CreateTableConfig) :
    Store × Except DbError TableConfig :=
  match createTableConfig s d with
  | (s1, .error e) => (s1, .error e)
  | (s1, .ok config) =>
    match s1.dropdownItems.find? (fun item => item.id == d.dropdownId) with
    | none => (s1, .ok config)
    | some dropdown =>
      match s1.navigationTabs.find? (fun t => t.id == d.tabId) with
      | none => (s1, .ok config)
      | some tab =>
        let sample : InsertCurriculumRow :=
          { grade := tab.name, subject := dropdown.name,
            tableName := some d.tableName, objectives := "",
            unitPacing := "", assessments := "",
            materialsAndDifferentiation := "", biblical := "",
            standards := [], materials := none, differentiator := none }
        match createCurriculumRow s1 sample with
        | (s2, .ok _) => (s2, .ok config)
        | (s2, .error _) => (s2, .ok config)

/-! ## Orphan cleanup -/

/-- `SQLiteStorage.cleanupOrphanedCurriculumRows`:
`DELETE FROM curriculum_rows WHERE table_name NOT IN (SELECT table_name FROM
table_configs)`; returns the number of deleted rows.  Deleting a curriculum
row cascades to its `curriculum_standards` links. -/
def cleanupOrphanedCurriculumRows (s : Store) : Store × Nat :=
  let kept := s.curriculumRows.filter
    (fun r => s.tableConfigs.any (fun c => c.tableName == r.tableName))
  (({ s with
      curriculumRows := kept,
      csLinks := s.csLinks.filter
        (fun l => kept.any (fun r => r.id == l.curriculumId)) }),
    s.curriculumRows.length - kept.length)

/-! ## Import payload and server-side validation -/

/-- The `metadata` block of the export artifact; only the count fields are
ever read by the validator (`exportDate`/`version` are never consumed and are
not modelled). -/
structure ExportMetadata where
  totalCurriculumEntries : Nat
  totalStandards : Nat
  totalNavigationTabs : Nat
  totalDropdownItems : Nat
  totalTableConfigs : Nat
deriving DecidableEq

/-- The body of `POST /api/import/full-database` (and the shape produced by
`GET /api/export/full-database`): the navigation arrays and the school year
are optional backward-compatible fields. -/
structure ImportPayload where
  curriculumRows : List ApiCurriculumRow
  standards : List Standard
  navigationTabs : Option (List NavigationTab)
  dropdownItems : Option (List DropdownItem)
  tableConfigs : Option (List TableConfig)
  schoolYear : Option SchoolYear
  metadata : ExportMetadata
deriving DecidableEq

/-- The result object of `validateImportDataServer`. -/
structure ValidationResult where
  isValid : Bool
  error : Option String
  gradeCount : Nat
  subjectCount : Nat
deriving DecidableEq

/-- `{ isValid: false, error: msg }`. -/
def invalidResult (msg : String) : ValidationResult :=
  { isValid := false, error := some msg, gradeCount := 0, subjectCount := 0 }

/-- JS `Set.add`: insert if not present (used for the grade/subject tally). -/
def setAdd (l : List String) (x : String) : List String :=
  if l.any (fun y => y == x) then l else l ++ [x]

/-- The JS check `x.trim() === ''`: true exactly when every character of `x`
is whitespace (trimming removes leading and trailing whitespace, so the
trimmed string is empty iff nothing else is there). -/
def isBlank (s : String) : Bool := s.data.all (fun c => c.isWhitespace)

/-- The per-row loop of `validateImportDataServer`: object shape and field
presence are structural in the typed embedding; the value checks (positive
id, duplicate id, non-blank grade and subject, standards an array) are
checked in source order, failing fast.  Carries the id Set and the
grade/subject Sets. -/
def validateCurriculumRowsLoop :
    List ApiCurriculumRow → List Nat → List String → List String →
      Except String (List String × List String)
  | [], _, grades, subjects => .ok (grades, subjects)
  | r :: rest, ids, grades, subjects =>
    if r.id == 0 then .error "has invalid ID: must be a positive number"
    else if ids.any (fun i => i == r.id) then .error "Duplicate curriculum row ID"
    else if isBlank r.grade then
      .error "has invalid grade: must be a non-empty string"
    else if isBlank r.subject then
      .error "has invalid subject: must be a non-empty string"
    else
      validateCurriculumRowsLoop rest (ids ++ [r.id])
        (setAdd grades r.grade) (setAdd subjects r.subject)

/-- The per-standard loop of `validateImportDataServer`: positive id,
duplicate id, non-blank code and category (description only needs to be a
string, which is structural here). -/
def validateStandardsLoop : List Standard → List Nat → Except String Unit
  | [], _ => .ok ()
  | st :: rest, ids =>
    if st.id == 0 then .error "has invalid ID: must be a positive number"
    else if ids.any (fun i => i == st.id) then .error "Duplicate standard ID"
    else if isBlank st.code then
      .error "has invalid code: must be a non-empty string"
    else if isBlank st.category then
      .error "has invalid category: must be a non-empty string"
    else validateStandardsLoop rest (ids ++ [st.id])

/-- `validateImportDataServer(curriculumRows, standards, metadata)`: array and
object presence checks are structural; then the size bounds, the per-row and
per-standard loops, and finally the two metadata count checks
(`totalCurriculumEntries` and `totalStandards` — the navigation counts are
never consulted). -/
def validateImportDataServer (curriculumRows : List ApiCurriculumRow)
    (standards : List Standard) (metadata : ExportMetadata) : ValidationResult :=
  if curriculumRows.length > 10000 then
    invalidResult "Too many curriculum rows (max 10,000)"
  else if standards.length > 1000 then
    invalidResult "Too many standards (max 1,000)"
  else
    match validateCurriculumRowsLoop curriculumRows [] [] [] with
    | .error e => invalidResult e
    | .ok (grades, subjects) =>
      match validateStandardsLoop standards [] with
      | .error e => invalidResult e
      | .ok _ =>
        if !(metadata.totalCurriculumEntries == curriculumRows.length) then
          invalidResult "Metadata totalCurriculumEntries does not match actual curriculum rows count"
        else if !(metadata.totalStandards == standards.length) then
          invalidResult "Metadata totalStandards does not match actual standards count"
        else
          { isValid := true, error := none, gradeCount := grades.length,
            subjectCount := subjects.length }

/-! ## Full-database import -/

/-- One insert event of the import transaction (instrumentation recording
which entity each `INSERT` statement wrote, in execution order). -/
inductive InsEvent where
  | tab (id : Nat)
  | dropdown (id : Nat)
  | config (id : Nat)
  | schoolYear (id : Nat)
  | standard (id : Nat)
  | row (id : Nat)
  | link (curriculumId : Nat) (standardCode : String)
deriving DecidableEq

/-- A batch of per-row `INSERT` statements into one table: each statement
checks the table constraints against the rows already present and appends.
On a violation the statement throws, aborting the transaction. -/
def insertLoop {α : Type} (check : List α → α → Option DbError) :
    List α → List α → Except DbError (List α)
  | [], cur => .ok cur
  | x :: rest, cur =>
    match check cur x with
    | some e => .error e
    | none => insertLoop check rest (cur ++ [x])

/-- `navigation_tabs` constraints: INTEGER PRIMARY KEY id, UNIQUE name. -/
def tabCheck (cur : List NavigationTab) (t : NavigationTab) : Option DbError :=
  if cur.any (fun u => u.id == t.id) then some .pkViolation
  else if cur.any (fun u => u.name == t.name) then some .uniqueViolation
  else none

/-- `dropdown_items` constraints: PRIMARY KEY id, FOREIGN KEY tab_id. -/
def dropdownCheck (tabs : List NavigationTab) (cur : List DropdownItem)
    (d : DropdownItem) : Option DbError :=
  if cur.any (fun u => u.id == d.id) then some .pkViolation
  else if !(tabs.any (fun t => t.id == d.tabId)) then some .fkViolation
  else none

/-- `table_configs` constraints: PRIMARY KEY id, FOREIGN KEYs tab_id and
dropdown_id. -/
def configCheck (tabs : List NavigationTab) (drops : List DropdownItem)
    (cur : List TableConfig) (c : TableConfig) : Option DbError :=
  if cur.any (fun u => u.id == c.id) then some .pkViolation
  else if !(tabs.any (fun t => t.id == c.tabId)) then some .fkViolation
  else if !(drops.any (fun d => d.id == c.dropdownId)) then some .fkViolation
  else none

/-- `standards` constraints: PRIMARY KEY id, UNIQUE code. -/
def standardCheck (cur : List Standard) (st : Standard) : Option DbError :=
  if cur.any (fun u => u.id == st.id) then some .pkViolation
  else if cur.any (fun u => u.code == st.code) then some .uniqueViolation
  else none

/-- `curriculum_rows` constraints under explicit-id insert: PRIMARY KEY id. -/
def rowCheck (cur : List DbCurriculumRow) (r : DbCurriculumRow) : Option DbError :=
  if cur.any (fun u => u.id == r.id) then some .pkViolation else none

/-- `curriculum_standards` constraints: composite PRIMARY KEY, FOREIGN KEYs
to `curriculum_rows(id)` and `standards(code)`. -/
def linkCheck (rows : List DbCurriculumRow) (stds : List Standard)
    (cur : List CsLink) (l : CsLink) : Option DbError :=
  if cur.any (fun u => u.curriculumId == l.curriculumId &&
      u.standardCode == l.standardCode) then some .pkViolation
  else if !(rows.any (fun r => r.id == l.curriculumId)) then some .fkViolation
  else if !(stds.any (fun st => st.code == l.standardCode)) then some .fkViolation
  else none

/-- The import payload's curriculum row as inserted into `curriculum_rows`
(`row.materials || ''` etc. — on strings `x || ''` is the identity). -/
def apiToDb (r : ApiCurriculumRow) : DbCurriculumRow :=
  { id := r.id, grade := r.grade, subject := r.subject,
    objectives := r.objectives, unitPacing := r.unitPacing,
    assessments := r.assessments,
    materialsAndDifferentiation := r.materialsAndDifferentiation,
    biblical := r.biblical, materials := r.materials,
    differentiator := r.differentiator, tableName := r.tableName }

/-- The junction rows created from the payload
(`for row of curriculumRows: for code of row.standards: insert(row.id, code)`). -/
def payloadLinks (p : ImportPayload) : List CsLink :=
  p.curriculumRows.flatMap
    (fun r => r.standards.map (fun c => { curriculumId := r.id, standardCode := c }))

/-- `SQLiteStorage.importFullDatabase`, one `db.transaction`: clear links,
rows, standards; clear the three navigation tables when any navigation array
is supplied (JS truthiness: an empty supplied array still triggers the
clear); insert navigation tabs, dropdown items, table configs (each skipped
when the array is absent or empty); replace the school year when supplied;
insert standards, curriculum rows, and the curriculum-standards links.  On
any constraint violation the transaction rolls back (`Except.error`: the
caller keeps the pre-call store).  Also returns the ordered list of insert
events for the successful run. -/
def importFullDatabase (s : Store) (p : ImportPayload) :
    Except DbError (Store × List InsEvent) :=
  let navProvided := p.navigationTabs.isSome || p.dropdownItems.isSome ||
    p.tableConfigs.isSome
  let tabs0 := if navProvided then [] else s.navigationTabs
  let drops0 := if navProvided then [] else s.dropdownItems
  let cfgs0 := if navProvided then [] else s.tableConfigs
  let tabList := p.navigationTabs.getD []
  let dropList := p.dropdownItems.getD []
  let cfgList := p.tableConfigs.getD []
  match insertLoop tabCheck tabList tabs0 with
  | .error e => .error e
  | .ok tabs =>
    match insertLoop (dropdownCheck tabs) dropList drops0 with
    | .error e => .error e
    | .ok drops =>
      match insertLoop (configCheck tabs drops) cfgList cfgs0 with
      | .error e => .error e
      | .ok cfgs =>
        let syRows := match p.schoolYear with
          | some sy => [sy]
          | none => s.schoolYearRows
        match insertLoop standardCheck p.standards [] with
        | .error e => .error e
        | .ok stds =>
          match insertLoop rowCheck (p.curriculumRows.map apiToDb) [] with
          | .error e => .error e
          | .ok rows =>
            match insertLoop (linkCheck rows stds) (payloadLinks p) [] with
            | .error e => .error e
            | .ok links =>
              .ok
                ({ curriculumRows := rows, csLinks := links, standards := stds,
                   navigationTabs := tabs, dropdownItems := drops,
                   tableConfigs := cfgs, schoolYearRows := syRows },
                  tabList.map (fun t => InsEvent.tab t.id) ++
                  dropList.map (fun d => InsEvent.dropdown d.id) ++
                  cfgList.map (fun c => InsEvent.config c.id) ++
                  (match p.schoolYear with
                    | some sy => [InsEvent.schoolYear sy.id]
                    | none => []) ++
                  p.standards.map (fun st => InsEvent.standard st.id) ++
                  p.curriculumRows.map (fun r => InsEvent.row r.id) ++
                  (payloadLinks p).map
                    (fun l => InsEvent.link l.curriculumId l.standardCode))

/-! ## The export and import endpoints -/

/-- `GET /api/export/full-database` (the version `2.0` route registered ahead
of the Vite middleware): the full dataset plus the metadata counts. -/
def exportFullDatabase (s : Store) : ImportPayload :=
  let allRows := getAllCurriculumRows s
  let standards := getAllStandards s
  let navigationTabs := getAllNavigationTabs s
  let dropdownItems := getAllDropdownItems s
  let tableConfigs := getAllTableConfigs s
  { curriculumRows := allRows, standards := standards,
    navigationTabs := some navigationTabs,
    dropdownItems := some dropdownItems, tableConfigs := some tableConfigs,
    schoolYear := some (getSchoolYear s),
    metadata :=
      { totalCurriculumEntries := allRows.length,
        totalStandards := standards.length,
        totalNavigationTabs := navigationTabs.length,
        totalDropdownItems := dropdownItems.length,
        totalTableConfigs := tableConfigs.length } }

/-- The HTTP outcome of `POST /api/import/full-database`. -/
inductive ImportResponse where
  | success
  | badRequest (error : String)
  | serverError
deriving DecidableEq

/-- `POST /api/import/full-database`: validation runs strictly first; a
failed validation answers 400 with no store mutation; an import failure
answers 500 with the transaction rolled back. -/
def postImportFullDatabase (s : Store) (p : ImportPayload) :
    Store × ImportResponse :=
  let v := validateImportDataServer p.curriculumRows p.standards p.metadata
  if v.isValid then
    match importFullDatabase s p with
    | .ok (s2, _) => (s2, .success)
    | .error _ => (s, .serverError)
  else (s, .badRequest (v.error.getD ""))

/-! ## Store invariants and observational equality -/

/-- Two tables hold the same set of rows. -/
def SameElems {α : Type} (a b : List α) : Prop := ∀ x, x ∈ a ↔ x ∈ b

/-- Observational identity of two stores: the same curriculum rows,
curriculum-standard links, standards, navigation tabs, dropdown items and
table configs (same ids and field values), and the same school year. -/
def ObsEq (a b : Store) : Prop :=
  SameElems a.curriculumRows b.curriculumRows ∧
  SameElems a.csLinks b.csLinks ∧
  SameElems a.standards b.standards ∧
  SameElems a.navigationTabs b.navigationTabs ∧
  SameElems a.dropdownItems b.dropdownItems ∧
  SameElems a.tableConfigs b.tableConfigs ∧
  getSchoolYear a = getSchoolYear b

/-- The store states whose export survives its own validator and re-import:
the SQLite schema invariants (unique positive primary keys, the UNIQUE
columns, the enforced FOREIGN KEYs, no duplicate links), exactly one school
year row, plus the data conditions the import pipeline needs — grades,
subjects, standard codes and categories that do not trim to the empty
string, standard codes free of commas (the `GROUP_CONCAT`/`split` round
trip), and the validator size bounds. -/
def Exportable (s : Store) : Prop :=
  ((s.curriculumRows.map (fun r => r.id)).Nodup ∧
    (∀ r ∈ s.curriculumRows,
      1 ≤ r.id ∧ isBlank r.grade = false ∧ isBlank r.subject = false) ∧
    s.curriculumRows.length ≤ 10000) ∧
  ((s.standards.map (fun st => st.id)).Nodup ∧
    (s.standards.map (fun st => st.code)).Nodup ∧
    (∀ st ∈ s.standards,
      1 ≤ st.id ∧ isBlank st.code = false ∧ isBlank st.category = false ∧
        ',' ∉ st.code.data) ∧
    s.standards.length ≤ 1000) ∧
  (s.csLinks.Nodup ∧
    (∀ l ∈ s.csLinks,
      (∃ r ∈ s.curriculumRows, r.id = l.curriculumId) ∧
      (∃ st ∈ s.standards, st.code = l.standardCode))) ∧
  ((s.navigationTabs.map (fun t => t.id)).Nodup ∧
    (s.navigationTabs.map (fun t => t.name)).Nodup) ∧
  ((s.dropdownItems.map (fun d => d.id)).Nodup ∧
    (∀ d ∈ s.dropdownItems, ∃ t ∈ s.navigationTabs, t.id = d.tabId)) ∧
  ((s.tableConfigs.map (fun c => c.id)).Nodup ∧
    (∀ c ∈ s.tableConfigs,
      (∃ t ∈ s.navigationTabs, t.id = c.tabId) ∧
      (∃ d ∈ s.dropdownItems, d.id = c.dropdownId))) ∧
  s.schoolYearRows.length = 1

/-! ## Concrete sample data for witnesses and counterexamples -/

/-- A regular grade tab. -/
def sampleTab : NavigationTab :=
  { id := 1, name := "Grade 1", displayName := "Grade 1", order := 1,
    isActive := true, createdAt := currentTimestamp,
    updatedAt := currentTimestamp }

/-- The system-managed Admin tab. -/
def adminTab : NavigationTab :=
  { id := 2, name := "Admin", displayName := "Admin", order := 10,
    isActive := true, createdAt := currentTimestamp,
    updatedAt := currentTimestamp }

/-- A subject dropdown under `sampleTab`. -/
def sampleDropdown : DropdownItem :=
  { id := 1, tabId := 1, name := "Math", displayName := "Math", order := 0,
    isActive := true, createdAt := currentTimestamp,
    updatedAt := currentTimestamp }

/-- A table config under `sampleDropdown`. -/
def sampleConfig : TableConfig :=
  { id := 1, tabId := 1, dropdownId := 1, tableName := "unit-a",
    displayName := "Unit A", order := 0, isActive := true,
    createdAt := currentTimestamp, updatedAt := currentTimestamp }

/-- A standard. -/
def sampleStandard : Standard :=
  { id := 1, code := "CC.1", description := "Counting", category := "Math" }

/-- A curriculum row living in `unit-a`, linked to `sampleStandard`. -/
def sampleRow : DbCurriculumRow :=
  { id := 1, grade := "Grade 1", subject := "Math", objectives := "obj",
    unitPacing := "", assessments := "", materialsAndDifferentiation := "",
    biblical := "", materials := "", differentiator := "",
    tableName := "unit-a" }

/-- The singleton school year. -/
def sampleYear : SchoolYear :=
  { id := 1, year := "2025-2026", updatedAt := currentTimestamp }

/-- A small fully-populated store. -/
def sampleStore : Store :=
  { curriculumRows := [sampleRow],
    csLinks := [{ curriculumId := 1, standardCode := "CC.1" }],
    standards := [sampleStandard],
    navigationTabs := [sampleTab, adminTab],
    dropdownItems := [sampleDropdown],
    tableConfigs := [sampleConfig],
    schoolYearRows := [sampleYear] }


/-! ## General helper lemmas -/

theorem filter_length_partition {α : Type} (l : List α) (p : α → Bool) :
    (l.filter p).length + (l.filter (fun a => !(p a))).length = l.length := by
  induction l with
  | nil => rfl
  | cons a t ih =>
    cases hp : p a <;> simp [List.filter_cons, hp, ← ih] <;> omega

theorem insertLinksSeq_curriculumRows (s : Store) (rid : Nat) (cs : List String) :
    ((insertLinksSeq s rid cs).1).curriculumRows = s.curriculumRows := by
  induction cs generalizing s with
  | nil => rfl
  | cons c rest ih =>
    unfold insertLinksSeq
    by_cases h1 : s.standards.any (fun st => st.code == c)
    · by_cases h2 : s.csLinks.any (fun l => l.curriculumId == rid && l.standardCode == c)
      · simp [h1, h2]
      · simp [h1, h2, ih]
    · simp [h1]

theorem insertLinksSeq_standards (s : Store) (rid : Nat) (cs : List String) :
    ((insertLinksSeq s rid cs).1).standards = s.standards := by
  induction cs generalizing s with
  | nil => rfl
  | cons c rest ih =>
    unfold insertLinksSeq
    by_cases h1 : s.standards.any (fun st => st.code == c)
    · by_cases h2 : s.csLinks.any (fun l => l.curriculumId == rid && l.standardCode == c)
      · simp [h1, h2]
      · simp [h1, h2, ih]
    · simp [h1]

theorem insertLinksSeq_ok_codes_known (s : Store) (rid : Nat) (cs : List String)
    (h : (insertLinksSeq s rid cs).2 = none) :
    ∀ c ∈ cs, ∃ st ∈ s.standards, st.code = c := by
  induction cs generalizing s with
  | nil => intro c hc; cases hc
  | cons c rest ih =>
    intro x hx
    unfold insertLinksSeq at h
    by_cases h1 : s.standards.any (fun st => st.code == c)
    · by_cases h2 : s.csLinks.any (fun l => l.curriculumId == rid && l.standardCode == c)
      · simp [h1, h2] at h
      · simp only [h1, h2, Bool.not_true, if_true, if_false] at h
        rcases List.mem_cons.mp hx with rfl | hx2
        · rcases List.any_eq_true.mp h1 with ⟨st, hst, hcode⟩
          exact ⟨st, hst, by simpa using hcode⟩
        · have := ih _ h x hx2
          simpa using this
    · simp [h1] at h

/-! ## Claim C2: orphaned-row cleanup -/

/-- A legacy curriculum row with an empty `tableName`. -/
def emptyNameRow : DbCurriculumRow :=
  { id := 1, grade := "KG", subject := "Math", objectives := "count to 10",
    unitPacing := "", assessments := "", materialsAndDifferentiation := "",
    biblical := "", materials := "", differentiator := "", tableName := "" }

/-- A store holding only the legacy row and no table configs at all. -/
def c2Store : Store :=
  { curriculumRows := [emptyNameRow], csLinks := [], standards := [],
    navigationTabs := [], dropdownItems := [], tableConfigs := [],
    schoolYearRows := [sampleYear] }

/-- C2, counterexample: the claim says a curriculum row with an empty
`tableName` is never deleted by `cleanupOrphanedCurriculumRows`, but the
`NOT IN` delete removes it whenever no table config carries the empty
`tableName` — here the lone empty-named row is deleted and counted. -/
theorem c2_cleanup_counterexample :
    emptyNameRow ∈ c2Store.curriculumRows ∧ emptyNameRow.tableName = "" ∧
    (cleanupOrphanedCurriculumRows c2Store).1.curriculumRows = [] ∧
    (cleanupOrphanedCurriculumRows c2Store).2 = 1 := by
  refine ⟨by decide, by decide, by decide, by decide⟩

/-- C2, amended: `cleanupOrphanedCurriculumRows` deletes exactly those
curriculum rows whose `tableName` (empty included) matches the `tableName`
of no currently existing table config; a row with an empty `tableName`
survives only when some table config itself has an empty `tableName`.  The
count of deleted rows is returned and every other table except the link
cascade is untouched. -/
theorem c2_cleanup_amended (s : Store) :
    (∀ r, r ∈ (cleanupOrphanedCurriculumRows s).1.curriculumRows ↔
      r ∈ s.curriculumRows ∧ ∃ c ∈ s.tableConfigs, c.tableName = r.tableName) ∧
    (cleanupOrphanedCurriculumRows s).2 =
      (s.curriculumRows.filter
        (fun r => !(s.tableConfigs.any (fun c => c.tableName == r.tableName)))).length ∧
    (cleanupOrphanedCurriculumRows s).1.standards = s.standards ∧
    (cleanupOrphanedCurriculumRows s).1.navigationTabs = s.navigationTabs ∧
    (cleanupOrphanedCurriculumRows s).1.dropdownItems = s.dropdownItems ∧
    (cleanupOrphanedCurriculumRows s).1.tableConfigs = s.tableConfigs ∧
    (cleanupOrphanedCurriculumRows s).1.schoolYearRows = s.schoolYearRows := by
  refine ⟨?_, ?_, rfl, rfl, rfl, rfl, rfl⟩
  · intro r
    simp [cleanupOrphanedCurriculumRows, List.mem_filter, List.any_eq_true]
  · have h := filter_length_partition s.curriculumRows
      (fun r => s.tableConfigs.any (fun c => c.tableName == r.tableName))
    simp only [cleanupOrphanedCurriculumRows]
    omega

/-- C2, witness: on `sampleStore` (one row in `unit-a`, whose config exists)
the characterization instantiates: the row survives and the count is 0. -/
theorem c2_cleanup_witness :
    (sampleRow ∈ (cleanupOrphanedCurriculumRows sampleStore).1.curriculumRows ↔
      sampleRow ∈ sampleStore.curriculumRows ∧
        ∃ c ∈ sampleStore.tableConfigs, c.tableName = sampleRow.tableName) ∧
    (cleanupOrphanedCurriculumRows sampleStore).2 =
      (sampleStore.curriculumRows.filter
        (fun r => !(sampleStore.tableConfigs.any
          (fun c => c.tableName == r.tableName)))).length :=
  ⟨(c2_cleanup_amended sampleStore).1 sampleRow, (c2_cleanup_amended sampleStore).2.1⟩

/-! ## Claim C5: Admin tab immutability -/

/-- A patch attempting a rename (any real mutation works the same). -/
def renamePatch : NavTabPatch :=
  { name := some "Hacked", displayName := none, order := none, isActive := none }

/-- C5: any `updateNavigationTab` or `deleteNavigationTab` call targeting the
id of a tab named `Admin` fails with the protected-entity error and leaves
the whole store unchanged. -/
theorem c5_admin_immutability (s : Store) (id : Nat) (t : NavigationTab)
    (p : NavTabPatch)
    (hfind : s.navigationTabs.find? (fun u => u.id == id) = some t)
    (hname : t.name = "Admin") :
    updateNavigationTab s id p = (s, .error .adminProtected) ∧
    deleteNavigationTab s id = (s, .error .adminProtected) := by
  unfold updateNavigationTab deleteNavigationTab
  rw [hfind]
  simp [hname]

/-- C5, witness: the Admin tab of `sampleStore` rejects a rename and a
delete, leaving the store intact. -/
theorem c5_admin_immutability_witness :
    updateNavigationTab sampleStore 2 renamePatch =
      (sampleStore, .error .adminProtected) ∧
    deleteNavigationTab sampleStore 2 = (sampleStore, .error .adminProtected) :=
  c5_admin_immutability sampleStore 2 adminTab renamePatch (by decide) (by decide)

/-! ## Claim C6: reserved order range -/

/-- C6, counterexample: the claim says every `createTab` call with an order
in 0..99 succeeds, but creating a tab with order 0 whose name duplicates an
existing tab (`Grade 1` in `sampleStore`) hits the UNIQUE `name` constraint
and fails; likewise an `updateTab` with order 50 against the Admin tab fails
with the protected-entity error rather than succeeding. -/
theorem c6_order_counterexample :
    createNavigationTab sampleStore
      { name := "Grade 1", displayName := "Grade One", order := 0 } =
      (sampleStore, .error .uniqueViolation) ∧
    updateNavigationTab sampleStore 2
      { name := none, displayName := none, order := some 50, isActive := none } =
      (sampleStore, .error .adminProtected) := by
  refine ⟨by decide, by decide⟩

/-- C6, amended: `order >= 100` always fails with the reserved-order
validation error (for `updateTab` provided the target exists and is not the
Admin tab, whose protection takes precedence); an order in 0..99 always
passes the reservation check — `createTab` succeeds whenever the new name is
not already taken, and `updateTab` succeeds whenever the target exists, is
not the Admin tab, and any supplied rename does not collide with another
tab's name. -/
theorem c6_order_amended :
    (∀ s d, d.order ≥ 100 →
      createNavigationTab s d = (s, .error .orderReserved)) ∧
    (∀ s id p t, s.navigationTabs.find? (fun u => u.id == id) = some t →
      t.name ≠ "Admin" → (∃ o, p.order = some o ∧ o ≥ 100) →
      updateNavigationTab s id p = (s, .error .orderReserved)) ∧
    (∀ s d, d.order ≤ 99 → (∀ t ∈ s.navigationTabs, t.name ≠ d.name) →
      ∃ t, createNavigationTab s d =
        ({ s with navigationTabs := s.navigationTabs ++ [t] }, .ok t) ∧
        t.name = d.name ∧ t.displayName = d.displayName ∧
        t.order = d.order ∧ t.isActive = true) ∧
    (∀ s id p t o, s.navigationTabs.find? (fun u => u.id == id) = some t →
      t.name ≠ "Admin" → p.order = some o → o ≤ 99 →
      (∀ n, p.name = some n →
        ∀ u ∈ s.navigationTabs, u.id ≠ id → u.name ≠ n) →
      ∃ t2, updateNavigationTab s id p =
        ({ s with navigationTabs :=
            s.navigationTabs.map (fun u => if u.id == id then t2 else u) },
          .ok (some t2)) ∧ t2.order = o) := by
  refine ⟨?_, ?_, ?_, ?_⟩
  · intro s d h
    unfold createNavigationTab
    simp [h]
  · intro s id p t hfind hname ⟨o, ho, hge⟩
    unfold updateNavigationTab
    rw [hfind]
    simp [hname, ho, hge]
  · intro s d hle hfresh
    unfold createNavigationTab
    have h100 : ¬ d.order ≥ 100 := by omega
    have hany : s.navigationTabs.any (fun t => t.name == d.name) = false := by
      simp only [List.any_eq_false]
      intro t ht
      simpa using hfresh t ht
    refine ⟨⟨freshId (s.navigationTabs.map (fun x => x.id)), d.name,
      d.displayName, d.order, true, currentTimestamp, currentTimestamp⟩,
      ?_, rfl, rfl, rfl, rfl⟩
    simp [h100, hany]
  · intro s id p t o hfind hname ho hle hfresh
    unfold updateNavigationTab
    rw [hfind]
    have h100 : (p.order.any (fun o => o ≥ 100)) = false := by
      simp [ho]; omega
    have hnonempty : (p.name.isSome || p.displayName.isSome || p.order.isSome ||
        p.isActive.isSome) = true := by
      simp [ho]
    have huniq : (p.name.any (fun n => s.navigationTabs.any
        (fun u => !(u.id == id) && u.name == n))) = false := by
      cases hn : p.name with
      | none => rfl
      | some n =>
        simp only [Option.any_some, List.any_eq_false]
        intro u hu
        have := hfresh n hn u hu
        by_cases hid : u.id = id
        · simp [hid]
        · simp [hid, this hid]
    simp only [hname, h100, hnonempty, huniq]
    refine ⟨applyTabPatch t p, ?_, ?_⟩
    · simp [hname]
    · simp [applyTabPatch, ho]

/-- C6, witness: instances of all four parts on concrete stores — creating
with order 100 fails, updating `Grade 1` to order 100 fails, creating a
fresh tab with order 5 succeeds, and updating `Grade 1` to order 7
succeeds. -/
theorem c6_order_witness :
    createNavigationTab sampleStore
      { name := "Grade 2", displayName := "Grade Two", order := 100 } =
      (sampleStore, .error .orderReserved) ∧
    updateNavigationTab sampleStore 1
      { name := none, displayName := none, order := some 100, isActive := none } =
      (sampleStore, .error .orderReserved) ∧
    (∃ t, createNavigationTab sampleStore
      { name := "Grade 2", displayName := "Grade Two", order := 5 } =
      ({ sampleStore with
          navigationTabs := sampleStore.navigationTabs ++ [t] }, .ok t) ∧
      t.name = "Grade 2" ∧ t.displayName = "Grade Two" ∧
      t.order = 5 ∧ t.isActive = true) ∧
    (∃ t2, updateNavigationTab sampleStore 1
      { name := none, displayName := none, order := some 7, isActive := none } =
      ({ sampleStore with
          navigationTabs := sampleStore.navigationTabs.map
            (fun u => if u.id == 1 then t2 else u) }, .ok (some t2)) ∧
      t2.order = 7) := by
  refine ⟨?_, ?_, ?_, ?_⟩
  · exact c6_order_amended.1 sampleStore _ (by decide)
  · exact c6_order_amended.2.1 sampleStore 1 _ sampleTab (by decide) (by decide)
      ⟨100, rfl, by decide⟩
  · exact c6_order_amended.2.2.1 sampleStore _ (by decide) (by decide)
  · exact c6_order_amended.2.2.2 sampleStore 1 _ sampleTab 7 (by decide)
      (by decide) rfl (by decide) (by intro n hn; cases hn)

/-! ## Claim C7: table-config creation seeds one sample row -/

/-- C7: when the supplied `tabId` and `dropdownId` reference an existing tab
and dropdown, `POST /api/table-configs` creates the config and then exactly
one new curriculum row whose `grade` is the owning tab's name, `subject` the
owning dropdown's name, `tableName` the new config's table name, with every
content field empty — and nothing else in the store changes (in particular
the links, so the seeded row has no standards). -/
theorem c7_seeding (s : Store) (d : CreateTableConfig) (tab : NavigationTab)
    (dd : DropdownItem)
    (htab : s.navigationTabs.find? (fun t => t.id == d.tabId) = some tab)
    (hdd : s.dropdownItems.find? (fun i => i.id == d.dropdownId) = some dd) :
    ∃ cfg row,
      postTableConfigs s d =
        ({ s with
            tableConfigs := s.tableConfigs ++ [cfg],
            curriculumRows := s.curriculumRows ++ [row] }, .ok cfg) ∧
      cfg.tabId = d.tabId ∧ cfg.dropdownId = d.dropdownId ∧
      cfg.tableName = d.tableName ∧ cfg.displayName = d.displayName ∧
      cfg.order = d.order ∧ cfg.isActive = true ∧
      row.grade = tab.name ∧ row.subject = dd.name ∧
      row.tableName = d.tableName ∧ row.objectives = "" ∧
      row.unitPacing = "" ∧ row.assessments = "" ∧
      row.materialsAndDifferentiation = "" ∧ row.biblical = "" ∧
      row.materials = "" ∧ row.differentiator = "" := by
  have hp1 := List.find?_some htab
  have hp2 := List.find?_some hdd
  have htabany : s.navigationTabs.any (fun t => t.id == d.tabId) = true :=
    List.any_eq_true.mpr ⟨tab, List.mem_of_find?_eq_some htab, hp1⟩
  have hddany : s.dropdownItems.any (fun i => i.id == d.dropdownId) = true :=
    List.any_eq_true.mpr ⟨dd, List.mem_of_find?_eq_some hdd, hp2⟩
  refine ⟨⟨freshId (s.tableConfigs.map (fun x => x.id)), d.tabId, d.dropdownId,
    d.tableName, d.displayName, d.order, true, currentTimestamp,
    currentTimestamp⟩,
    ⟨freshId (s.curriculumRows.map (fun x => x.id)), tab.name, dd.name,
      "", "", "", "", "", "", "", d.tableName⟩,
    ?_, rfl, rfl, rfl, rfl, rfl, rfl, rfl, rfl, rfl, rfl, rfl, rfl, rfl, rfl,
    rfl, rfl⟩
  unfold postTableConfigs createTableConfig createCurriculumRow insertLinksSeq
  simp only [htabany, hddany, Bool.not_true, Bool.false_eq_true, if_false]
  rw [hdd, htab]
  simp [Option.getD]

/-- C7, witness: on `sampleStore`, creating a `unit-b` config for the Math
dropdown under Grade 1 yields the config plus one empty seeded row. -/
theorem c7_seeding_witness :
    ∃ cfg row,
      postTableConfigs sampleStore
        { tabId := 1, dropdownId := 1, tableName := "unit-b",
          displayName := "Unit B", order := 1 } =
        ({ sampleStore with
            tableConfigs := sampleStore.tableConfigs ++ [cfg],
            curriculumRows := sampleStore.curriculumRows ++ [row] }, .ok cfg) ∧
      row.grade = "Grade 1" ∧ row.subject = "Math" ∧
      row.tableName = "unit-b" ∧ row.objectives = "" := by
  obtain ⟨cfg, row, heq, _, _, hname, _, _, _, hg, hs, ht, ho, _⟩ :=
    c7_seeding sampleStore
      { tabId := 1, dropdownId := 1, tableName := "unit-b",
        displayName := "Unit B", order := 1 }
      sampleTab sampleDropdown (by decide) (by decide)
  exact ⟨cfg, row, heq, by simpa using hg, by simpa using hs, ht, ho⟩

/-! ## Claim C8: standards codes at write time -/

/-- A store with an empty `standards` table. -/
def c8Store : Store :=
  { curriculumRows := [], csLinks := [], standards := [],
    navigationTabs := [sampleTab], dropdownItems := [], tableConfigs := [],
    schoolYearRows := [sampleYear] }

/-- An insert whose standards set holds a code unknown to the store. -/
def c8Insert : InsertCurriculumRow :=
  { grade := "KG", subject := "Math", objectives := "", unitPacing := "",
    assessments := "", materialsAndDifferentiation := "", biblical := "",
    standards := ["MISSING.1"], materials := none, differentiator := none,
    tableName := none }

/-- C8, counterexample: the claim says a create with an unknown standards
code succeeds, but `PRAGMA foreign_keys = ON` plus the
`curriculum_standards(standard_code) REFERENCES standards(code)` FOREIGN KEY
makes the link insert fail. -/
theorem c8_soft_reference_counterexample :
    (¬ ∃ st ∈ c8Store.standards, st.code = "MISSING.1") ∧
    (createCurriculumRow c8Store c8Insert).2 = .error .fkViolation := by
  refine ⟨by decide, by decide⟩

/-- C8, amended: creating a curriculum row whose standards set contains a
code that does not exist in the standards table fails (the FOREIGN KEY on
`curriculum_standards.standard_code` is enforced at write time), and
likewise updating an existing row with such a standards set fails. -/
theorem c8_soft_reference_amended :
    (∀ s r, (∃ c ∈ r.standards, ∀ st ∈ s.standards, st.code ≠ c) →
      ∃ e, (createCurriculumRow s r).2 = Except.error e) ∧
    (∀ s id p codes, p.standards = some codes →
      (∃ c ∈ codes, ∀ st ∈ s.standards, st.code ≠ c) →
      s.curriculumRows.any (fun r => r.id == id) = true →
      ∃ e, (updateCurriculumRow s id p).2 = Except.error e) := by
  constructor
  · intro s r ⟨c, hc, hunknown⟩
    unfold createCurriculumRow
    rcases hres : insertLinksSeq
      { s with curriculumRows := s.curriculumRows ++
          [{ id := freshId (s.curriculumRows.map (fun x => x.id)),
             grade := r.grade, subject := r.subject,
             objectives := r.objectives, unitPacing := r.unitPacing,
             assessments := r.assessments,
             materialsAndDifferentiation := r.materialsAndDifferentiation,
             biblical := r.biblical, materials := r.materials.getD "",
             differentiator := r.differentiator.getD "",
             tableName := r.tableName.getD "" }] }
      (freshId (s.curriculumRows.map (fun x => x.id))) r.standards with ⟨s2, e?⟩
    cases e? with
    | some e =>
      refine ⟨e, ?_⟩
      simp only [hres]
    | none =>
      exfalso
      have hk := insertLinksSeq_ok_codes_known _ _ _ (by rw [hres])
      obtain ⟨st, hst, hcode⟩ := hk c hc
      exact hunknown st hst hcode
  · intro s id p codes hcodes hunknown hany
    unfold updateCurriculumRow
    simp only [hany, Bool.not_true, if_false, hcodes]
    set s1 : Store :=
      if p.hasBaseField then
        { s with curriculumRows :=
            s.curriculumRows.map (fun r => if r.id == id then applyRowPatch r p else r) }
      else s with hs1
    set s2 : Store :=
      { s1 with csLinks := s1.csLinks.filter (fun l => !(l.curriculumId == id)) }
      with hs2
    have hstd : s2.standards = s.standards := by
      rw [hs2]
      show s1.standards = s.standards
      rw [hs1]
      by_cases hb : p.hasBaseField <;> simp [hb]
    rcases hres : insertLinksSeq s2 id codes with ⟨s3, e?⟩
    cases e? with
    | some e =>
      refine ⟨e, ?_⟩
      simp [hres]
    | none =>
      exfalso
      obtain ⟨c, hc, hun⟩ := hunknown
      have hk := insertLinksSeq_ok_codes_known _ _ _ (by rw [hres])
      obtain ⟨st, hst, hcode⟩ := hk c hc
      rw [hstd] at hst
      exact hun st hst hcode

/-- C8, witness: in a store with no standards, the create in the
counterexample input fails, and updating an existing row to reference
`MISSING.1` fails too. -/
theorem c8_soft_reference_witness :
    (∃ c ∈ c8Insert.standards, ∀ st ∈ c8Store.standards, st.code ≠ c) ∧
    (∃ e, (createCurriculumRow c8Store c8Insert).2 = Except.error e) ∧
    (∃ e, (updateCurriculumRow sampleStore 1
      { grade := none, subject := none, objectives := none,
        unitPacing := none, assessments := none,
        materialsAndDifferentiation := none, biblical := none,
        standards := some ["MISSING.1"], materials := none,
        differentiator := none, tableName := none }).2 = Except.error e) := by
  refine ⟨by decide, ?_, ?_⟩
  · exact c8_soft_reference_amended.1 c8Store c8Insert (by decide)
  · exact c8_soft_reference_amended.2 sampleStore 1 _ ["MISSING.1"] rfl
      (by decide) (by decide)

/-! ## Claim C10: createCurriculumRow is not atomic -/

/-- C10: `createCurriculumRow` inserts the base row first and the standards
links afterwards with no enclosing transaction, so when a link insert fails
(for example the `standard_code` FOREIGN KEY rejecting an unknown code) the
operation raises an error yet the new curriculum row stays in the store:
the pre-call state is not restored. -/
theorem c10_create_non_atomic (s : Store) (r : InsertCurriculumRow)
    (h : ∃ c ∈ r.standards, ∀ st ∈ s.standards, st.code ≠ c) :
    ∃ e s2 row,
      createCurriculumRow s r = (s2, Except.error e) ∧
      s2.curriculumRows = s.curriculumRows ++ [row] ∧
      row.id = freshId (s.curriculumRows.map (fun x => x.id)) ∧
      row.grade = r.grade ∧ row.subject = r.subject ∧
      row.tableName = r.tableName.getD "" ∧
      s2 ≠ s := by
  unfold createCurriculumRow
  rcases hres : insertLinksSeq
    { s with curriculumRows := s.curriculumRows ++
        [{ id := freshId (s.curriculumRows.map (fun x => x.id)),
           grade := r.grade, subject := r.subject,
           objectives := r.objectives, unitPacing := r.unitPacing,
           assessments := r.assessments,
           materialsAndDifferentiation := r.materialsAndDifferentiation,
           biblical := r.biblical, materials := r.materials.getD "",
           differentiator := r.differentiator.getD "",
           tableName := r.tableName.getD "" }] }
    (freshId (s.curriculumRows.map (fun x => x.id))) r.standards with ⟨s2, e?⟩
  cases e? with
  | none =>
    exfalso
    obtain ⟨c, hc, hun⟩ := h
    have hk := insertLinksSeq_ok_codes_known _ _ _ (by rw [hres])
    obtain ⟨st, hst, hcode⟩ := hk c hc
    exact hun st hst hcode
  | some e =>
    have hrows : s2.curriculumRows = s.curriculumRows ++
        [{ id := freshId (s.curriculumRows.map (fun x => x.id)),
           grade := r.grade, subject := r.subject,
           objectives := r.objectives, unitPacing := r.unitPacing,
           assessments := r.assessments,
           materialsAndDifferentiation := r.materialsAndDifferentiation,
           biblical := r.biblical, materials := r.materials.getD "",
           differentiator := r.differentiator.getD "",
           tableName := r.tableName.getD "" }] := by
      have := insertLinksSeq_curriculumRows
        { s with curriculumRows := s.curriculumRows ++
            [{ id := freshId (s.curriculumRows.map (fun x => x.id)),
               grade := r.grade, subject := r.subject,
               objectives := r.objectives, unitPacing := r.unitPacing,
               assessments := r.assessments,
               materialsAndDifferentiation := r.materialsAndDifferentiation,
               biblical := r.biblical, materials := r.materials.getD "",
               differentiator := r.differentiator.getD "",
               tableName := r.tableName.getD "" }] }
        (freshId (s.curriculumRows.map (fun x => x.id))) r.standards
      rw [hres] at this
      exact this
    refine ⟨e, s2, _, by simp only [hres], hrows, rfl, rfl, rfl, rfl, ?_⟩
    intro hcontra
    have : s.curriculumRows.length = s.curriculumRows.length + 1 := by
      conv_lhs => rw [← hcontra, hrows]
      simp
    omega

/-- C10, witness: the concrete failing create of the C8 counterexample store
leaves the fresh base row behind. -/
theorem c10_create_non_atomic_witness :
    ∃ e s2 row,
      createCurriculumRow c8Store c8Insert = (s2, Except.error e) ∧
      s2.curriculumRows = c8Store.curriculumRows ++ [row] ∧
      row.grade = c8Insert.grade ∧ s2 ≠ c8Store := by
  obtain ⟨e, s2, row, h1, h2, _, h4, _, _, h7⟩ :=
    c10_create_non_atomic c8Store c8Insert (by decide)
  exact ⟨e, s2, row, h1, h2, h4, h7⟩

/-! ## Claim C9: cascade deletes are keyed on the tableName string -/

/-- C9: `deleteTableConfig` removes every curriculum row in the whole store
whose `tableName` equals the deleted config's `tableName` (and only the one
config row); the table-config steps of the dropdown and tab cascades remove
every row whose `tableName` matches any config in the deleted subtree.  The
matching is on the `tableName` string alone, not on ownership, so rows under
a different dropdown or tab that share the string are deleted too. -/
theorem c9_cascade_by_tablename :
    (∀ s id cfg, getTableConfigById s id = some cfg →
      (∀ r, r ∈ (deleteTableConfig s id).1.curriculumRows ↔
        r ∈ s.curriculumRows ∧ r.tableName ≠ cfg.tableName) ∧
      (∀ c, c ∈ (deleteTableConfig s id).1.tableConfigs ↔
        c ∈ s.tableConfigs ∧ c.id ≠ id)) ∧
    (∀ s id r, r ∈ (deleteDropdownItem s id).1.curriculumRows ↔
      r ∈ s.curriculumRows ∧ r.tableName ∉ dropdownCascadeNames s id) ∧
    (∀ s id, (∀ t ∈ s.navigationTabs, t.id = id → t.name ≠ "Admin") →
      ∀ r, r ∈ (deleteNavigationTab s id).1.curriculumRows ↔
        r ∈ s.curriculumRows ∧ r.tableName ∉ tabCascadeNames s id) := by
  refine ⟨?_, ?_, ?_⟩
  · intro s id cfg hcfg
    unfold deleteTableConfig
    rw [hcfg]
    constructor
    · intro r
      simp [List.mem_filter]
    · intro c
      simp [List.mem_filter]
  · intro s id r
    unfold deleteDropdownItem
    simp [List.mem_filter, List.any_eq_true, List.forall_mem_ne']
  · intro s id hadm r
    unfold deleteNavigationTab
    cases hfind : s.navigationTabs.find? (fun u => u.id == id) with
    | none =>
      simp only []
      unfold tabCascade
      simp [List.mem_filter, List.any_eq_true, List.forall_mem_ne']
    | some t =>
      have hmem := List.mem_of_find?_eq_some hfind
      have hp := List.find?_some hfind
      have htid : t.id = id := by simpa using hp
      have hname : t.name ≠ "Admin" := hadm t hmem htid
      simp only [hname, beq_iff_eq, if_neg hname]
      unfold tabCascade
      simp [List.mem_filter, List.any_eq_true, List.forall_mem_ne']

/-- A curriculum row living under a different tab but sharing the
`tableName` string `shared`. -/
def c9OtherRow : DbCurriculumRow :=
  { id := 2, grade := "Grade 5", subject := "Art", objectives := "o",
    unitPacing := "", assessments := "", materialsAndDifferentiation := "",
    biblical := "", materials := "", differentiator := "",
    tableName := "shared" }

/-- The config under tab 1 whose `tableName` collides with the other
subtree. -/
def c9Cfg : TableConfig :=
  { id := 1, tabId := 1, dropdownId := 1, tableName := "shared",
    displayName := "A", order := 0, isActive := true,
    createdAt := currentTimestamp, updatedAt := currentTimestamp }

/-- A two-subtree store where both table configs share the name `shared`:
`c9OtherRow` belongs to the config of tab 10. -/
def c9Store : Store :=
  { curriculumRows := [c9OtherRow], csLinks := [], standards := [],
    navigationTabs := [sampleTab], dropdownItems := [sampleDropdown],
    tableConfigs :=
      [c9Cfg,
       { id := 2, tabId := 10, dropdownId := 7, tableName := "shared",
         displayName := "B", order := 0, isActive := true,
         createdAt := currentTimestamp, updatedAt := currentTimestamp }],
    schoolYearRows := [sampleYear] }

/-- C9, witness: deleting the config under tab 1 also deletes the curriculum
row that belongs to the subtree of tab 10, because the cascade matches the
`tableName` string alone. -/
theorem c9_cascade_by_tablename_witness :
    c9OtherRow ∉ (deleteTableConfig c9Store 1).1.curriculumRows := by
  intro h
  have hiff := (c9_cascade_by_tablename.1 c9Store 1 c9Cfg (by decide)).1 c9OtherRow
  exact (hiff.mp h).2 (by decide)

/-! ## Claim C3: metadata count checks -/

/-- A payload whose `totalNavigationTabs` is wrong while the two checked
counts are right. -/
def c3Payload : ImportPayload :=
  { curriculumRows := [], standards := [],
    navigationTabs := some [sampleTab], dropdownItems := none,
    tableConfigs := none, schoolYear := none,
    metadata :=
      { totalCurriculumEntries := 0, totalStandards := 0,
        totalNavigationTabs := 5, totalDropdownItems := 0,
        totalTableConfigs := 0 } }

/-- C3, counterexample: the claim says a present `navigationTabs` array with
a mismatched `totalNavigationTabs` is rejected, but the validator never
consults the navigation counts — this payload declares 5 tabs while shipping
1, yet validates. -/
theorem c3_metadata_counterexample :
    c3Payload.navigationTabs = some [sampleTab] ∧
    c3Payload.metadata.totalNavigationTabs = 5 ∧
    (c3Payload.navigationTabs.getD []).length = 1 ∧
    (validateImportDataServer c3Payload.curriculumRows c3Payload.standards
      c3Payload.metadata).isValid = true := by
  refine ⟨rfl, rfl, by decide, by decide⟩

/-- Validation succeeds only when the two checked counts match. -/
theorem validate_isValid_counts (rows : List ApiCurriculumRow)
    (stds : List Standard) (md : ExportMetadata)
    (h : (validateImportDataServer rows stds md).isValid = true) :
    md.totalCurriculumEntries = rows.length ∧
    md.totalStandards = stds.length := by
  unfold validateImportDataServer at h
  by_cases h1 : rows.length > 10000
  · simp [h1, invalidResult] at h
  · by_cases h2 : stds.length > 1000
    · simp [h1, h2, invalidResult] at h
    · simp only [h1, h2, if_false] at h
      cases hr : validateCurriculumRowsLoop rows [] [] [] with
      | error e => rw [hr] at h; simp [invalidResult] at h
      | ok gs =>
        rw [hr] at h
        cases hs : validateStandardsLoop stds [] with
        | error e => rw [hs] at h; simp [invalidResult] at h
        | ok u =>
          rw [hs] at h
          by_cases hc1 : md.totalCurriculumEntries = rows.length
          · by_cases hc2 : md.totalStandards = stds.length
            · exact ⟨hc1, hc2⟩
            · simp [hc1, hc2, invalidResult] at h
          · simp [hc1, invalidResult] at h

/-- C3, amended: only `totalCurriculumEntries` and `totalStandards` are
checked against the array lengths — a mismatch in either rejects the payload
before any mutation (the import endpoint leaves the store untouched); the
navigation counts (`totalNavigationTabs`, `totalDropdownItems`,
`totalTableConfigs`) are never consulted. -/
theorem c3_metadata_amended (rows : List ApiCurriculumRow)
    (stds : List Standard) (md : ExportMetadata)
    (h : md.totalCurriculumEntries ≠ rows.length ∨
      md.totalStandards ≠ stds.length) :
    (validateImportDataServer rows stds md).isValid = false ∧
    (∀ s p, p.curriculumRows = rows → p.standards = stds → p.metadata = md →
      (postImportFullDatabase s p).1 = s) := by
  have hv : (validateImportDataServer rows stds md).isValid = false := by
    cases hb : (validateImportDataServer rows stds md).isValid with
    | false => rfl
    | true =>
      rcases validate_isValid_counts rows stds md hb with ⟨e1, e2⟩
      rcases h with hne | hne
      · exact absurd e1 hne
      · exact absurd e2 hne
  refine ⟨hv, ?_⟩
  intro s p hp1 hp2 hp3
  simp only [postImportFullDatabase, hp1, hp2, hp3, hv, Bool.false_eq_true,
    if_false]

/-- C3, witness: a payload declaring one curriculum entry while shipping
none is rejected and the import endpoint leaves the sample store as it
was. -/
theorem c3_metadata_witness :
    (validateImportDataServer ([] : List ApiCurriculumRow) [] 
      { totalCurriculumEntries := 1, totalStandards := 0,
        totalNavigationTabs := 0, totalDropdownItems := 0,
        totalTableConfigs := 0 }).isValid = false ∧
    (postImportFullDatabase sampleStore
      { curriculumRows := [], standards := [], navigationTabs := none,
        dropdownItems := none, tableConfigs := none, schoolYear := none,
        metadata :=
          { totalCurriculumEntries := 1, totalStandards := 0,
            totalNavigationTabs := 0, totalDropdownItems := 0,
            totalTableConfigs := 0 } }).1 = sampleStore := by
  have h := c3_metadata_amended [] []
    { totalCurriculumEntries := 1, totalStandards := 0,
      totalNavigationTabs := 0, totalDropdownItems := 0,
      totalTableConfigs := 0 } (Or.inl (by decide))
  exact ⟨h.1, h.2 sampleStore _ rfl rfl rfl⟩

/-! ## Claim C4: insertion order of the import -/

/-- The insertion order the claim asserts (modelled from the spec's words:
standards, then navigation tabs, then dropdown items, then table configs,
then curriculum rows, then curriculum-standard links, then school year). -/
def claimedInsertRank : InsEvent → Nat
  | .standard _ => 0
  | .tab _ => 1
  | .dropdown _ => 2
  | .config _ => 3
  | .row _ => 4
  | .link _ _ => 5
  | .schoolYear _ => 6

/-- The insertion order the import code actually performs: navigation tabs,
dropdown items, table configs, school year, standards, curriculum rows,
curriculum-standard links. -/
def actualInsertRank : InsEvent → Nat
  | .tab _ => 0
  | .dropdown _ => 1
  | .config _ => 2
  | .schoolYear _ => 3
  | .standard _ => 4
  | .row _ => 5
  | .link _ _ => 6

theorem insertLoop_ok_eq {α : Type} (check : List α → α → Option DbError)
    (l : List α) : ∀ cur res, insertLoop check l cur = .ok res →
    res = cur ++ l := by
  induction l with
  | nil =>
    intro cur res h
    unfold insertLoop at h
    cases h
    simp
  | cons x rest ih =>
    intro cur res h
    unfold insertLoop at h
    cases hc : check cur x with
    | some e => rw [hc] at h; cases h
    | none =>
      rw [hc] at h
      have := ih _ _ h
      simp [this]

theorem pairwise_rank_of_const (f : InsEvent → Nat) (l : List InsEvent)
    (k : Nat) (h : ∀ a ∈ l, f a = k) :
    l.Pairwise (fun a b => f a ≤ f b) := by
  induction l with
  | nil => exact List.Pairwise.nil
  | cons a t ih =>
    refine List.Pairwise.cons ?_ (ih fun x hx => h x (List.mem_cons_of_mem a hx))
    intro b hb
    rw [h a (List.mem_cons_self a t), h b (List.mem_cons_of_mem a hb)]

theorem pairwise_rank_append (f : InsEvent → Nat) (l1 l2 : List InsEvent)
    (k : Nat) (h1 : ∀ a ∈ l1, f a ≤ k) (h2 : ∀ b ∈ l2, k ≤ f b)
    (p1 : l1.Pairwise (fun a b => f a ≤ f b))
    (p2 : l2.Pairwise (fun a b => f a ≤ f b)) :
    (l1 ++ l2).Pairwise (fun a b => f a ≤ f b) :=
  List.pairwise_append.mpr
    ⟨p1, p2, fun a ha b hb => le_trans (h1 a ha) (h2 b hb)⟩

/-- An empty dataset with the default school year. -/
def emptyStore : Store :=
  { curriculumRows := [], csLinks := [], standards := [],
    navigationTabs := [], dropdownItems := [], tableConfigs := [],
    schoolYearRows := [sampleYear] }

/-- A validated payload carrying one navigation tab and one standard. -/
def c4Payload : ImportPayload :=
  { curriculumRows := [], standards := [sampleStandard],
    navigationTabs := some [sampleTab], dropdownItems := some [],
    tableConfigs := some [], schoolYear := none,
    metadata :=
      { totalCurriculumEntries := 0, totalStandards := 1,
        totalNavigationTabs := 1, totalDropdownItems := 0,
        totalTableConfigs := 0 } }

/-- The store `importFullDatabase emptyStore c4Payload` produces. -/
def c4Result : Store :=
  { curriculumRows := [], csLinks := [], standards := [sampleStandard],
    navigationTabs := [sampleTab], dropdownItems := [], tableConfigs := [],
    schoolYearRows := [sampleYear] }

/-- C4, counterexample: the claim says standards are re-inserted before
navigation tabs, but the import inserts the navigation tab first — the
insert trace of this validated payload is `[tab 1, standard 1]`, which is
not ordered by the claimed ranks. -/
theorem c4_insert_order_counterexample :
    (validateImportDataServer c4Payload.curriculumRows c4Payload.standards
      c4Payload.metadata).isValid = true ∧
    importFullDatabase emptyStore c4Payload =
      .ok (c4Result, [InsEvent.tab 1, InsEvent.standard 1]) ∧
    ¬ List.Pairwise (fun a b => claimedInsertRank a ≤ claimedInsertRank b)
        [InsEvent.tab 1, InsEvent.standard 1] := by
  refine ⟨by decide, by decide, by decide⟩

/-- C4, amended: every successful import inserts in the order navigation
tabs → dropdown items → table configs → school year → standards →
curriculum rows → curriculum-standard links (the trace is sorted by
`actualInsertRank`), and every supplied entity is re-inserted with the id it
carries in the payload (tabs, dropdowns, configs and standards verbatim,
curriculum rows modulo the `|| ''` defaulting of optional text fields, the
links and the school year exactly). -/
theorem c4_insert_order_amended (s : Store) (p : ImportPayload) (s2 : Store)
    (es : List InsEvent) (h : importFullDatabase s p = .ok (s2, es)) :
    List.Pairwise (fun a b => actualInsertRank a ≤ actualInsertRank b) es ∧
    (∀ t ∈ p.navigationTabs.getD [], t ∈ s2.navigationTabs) ∧
    (∀ d ∈ p.dropdownItems.getD [], d ∈ s2.dropdownItems) ∧
    (∀ c ∈ p.tableConfigs.getD [], c ∈ s2.tableConfigs) ∧
    s2.standards = p.standards ∧
    s2.curriculumRows = p.curriculumRows.map apiToDb ∧
    s2.csLinks = payloadLinks p ∧
    (∀ sy, p.schoolYear = some sy → s2.schoolYearRows = [sy]) := by
  simp only [importFullDatabase] at h
  cases h1 : insertLoop tabCheck (p.navigationTabs.getD [])
      (if p.navigationTabs.isSome || p.dropdownItems.isSome ||
        p.tableConfigs.isSome then [] else s.navigationTabs) with
  | error e => rw [h1] at h; cases h
  | ok tabs =>
  rw [h1] at h
  simp only [] at h
  cases h2 : insertLoop (dropdownCheck tabs) (p.dropdownItems.getD [])
      (if p.navigationTabs.isSome || p.dropdownItems.isSome ||
        p.tableConfigs.isSome then [] else s.dropdownItems) with
  | error e => rw [h2] at h; cases h
  | ok drops =>
  rw [h2] at h
  simp only [] at h
  cases h3 : insertLoop (configCheck tabs drops) (p.tableConfigs.getD [])
      (if p.navigationTabs.isSome || p.dropdownItems.isSome ||
        p.tableConfigs.isSome then [] else s.tableConfigs) with
  | error e => rw [h3] at h; cases h
  | ok cfgs =>
  rw [h3] at h
  simp only [] at h
  cases h4 : insertLoop standardCheck p.standards [] with
  | error e => rw [h4] at h; cases h
  | ok stds =>
  rw [h4] at h
  simp only [] at h
  cases h5 : insertLoop rowCheck (p.curriculumRows.map apiToDb) [] with
  | error e => rw [h5] at h; cases h
  | ok rows =>
  rw [h5] at h
  simp only [] at h
  cases h6 : insertLoop (linkCheck rows stds) (payloadLinks p) [] with
  | error e => rw [h6] at h; cases h
  | ok links =>
  rw [h6] at h
  simp only [] at h
  cases h
  have htabs := insertLoop_ok_eq _ _ _ _ h1
  have hdrops := insertLoop_ok_eq _ _ _ _ h2
  have hcfgs := insertLoop_ok_eq _ _ _ _ h3
  have hstds := insertLoop_ok_eq _ _ _ _ h4
  have hrows := insertLoop_ok_eq _ _ _ _ h5
  have hlinks := insertLoop_ok_eq _ _ _ _ h6
  refine ⟨?_, ?_, ?_, ?_, by simp [hstds], by simp [hrows], by simp [hlinks], ?_⟩
  · have hA : ∀ a ∈ (p.navigationTabs.getD []).map
        (fun t => InsEvent.tab t.id), actualInsertRank a = 0 := by
      intro a ha; rcases List.mem_map.mp ha with ⟨t, -, rfl⟩; rfl
    have hB : ∀ a ∈ (p.dropdownItems.getD []).map
        (fun d => InsEvent.dropdown d.id), actualInsertRank a = 1 := by
      intro a ha; rcases List.mem_map.mp ha with ⟨d, -, rfl⟩; rfl
    have hC : ∀ a ∈ (p.tableConfigs.getD []).map
        (fun c => InsEvent.config c.id), actualInsertRank a = 2 := by
      intro a ha; rcases List.mem_map.mp ha with ⟨c, -, rfl⟩; rfl
    have hD : ∀ a ∈ (match p.schoolYear with
        | some sy => [InsEvent.schoolYear sy.id]
        | none => ([] : List InsEvent)), actualInsertRank a = 3 := by
      intro a ha
      cases hsy : p.schoolYear with
      | none => rw [hsy] at ha; cases ha
      | some sy =>
        rw [hsy] at ha
        rcases List.mem_singleton.mp ha with rfl
        rfl
    have hE : ∀ a ∈ p.standards.map (fun st => InsEvent.standard st.id),
        actualInsertRank a = 4 := by
      intro a ha; rcases List.mem_map.mp ha with ⟨st, -, rfl⟩; rfl
    have hF : ∀ a ∈ p.curriculumRows.map (fun r => InsEvent.row r.id),
        actualInsertRank a = 5 := by
      intro a ha; rcases List.mem_map.mp ha with ⟨r, -, rfl⟩; rfl
    have hG : ∀ a ∈ (payloadLinks p).map
        (fun l => InsEvent.link l.curriculumId l.standardCode),
        actualInsertRank a = 6 := by
      intro a ha; rcases List.mem_map.mp ha with ⟨l, -, rfl⟩; rfl
    simp only [List.append_assoc]
    refine pairwise_rank_append _ _ _ 0 (fun a ha => le_of_eq (hA a ha)) ?_
      (pairwise_rank_of_const _ _ _ hA) ?_
    · intro b hb; exact Nat.zero_le _
    refine pairwise_rank_append _ _ _ 1 (fun a ha => le_of_eq (hB a ha)) ?_
      (pairwise_rank_of_const _ _ _ hB) ?_
    · intro b hb
      simp only [List.mem_append] at hb
      rcases hb with hb | hb | hb | hb | hb
      · rw [hC b hb]; omega
      · rw [hD b hb]; omega
      · rw [hE b hb]; omega
      · rw [hF b hb]; omega
      · rw [hG b hb]; omega
    refine pairwise_rank_append _ _ _ 2 (fun a ha => le_of_eq (hC a ha)) ?_
      (pairwise_rank_of_const _ _ _ hC) ?_
    · intro b hb
      simp only [List.mem_append] at hb
      rcases hb with hb | hb | hb | hb
      · rw [hD b hb]; omega
      · rw [hE b hb]; omega
      · rw [hF b hb]; omega
      · rw [hG b hb]; omega
    refine pairwise_rank_append _ _ _ 3 (fun a ha => le_of_eq (hD a ha)) ?_
      (pairwise_rank_of_const _ _ _ hD) ?_
    · intro b hb
      simp only [List.mem_append] at hb
      rcases hb with hb | hb | hb
      · rw [hE b hb]; omega
      · rw [hF b hb]; omega
      · rw [hG b hb]; omega
    refine pairwise_rank_append _ _ _ 4 (fun a ha => le_of_eq (hE a ha)) ?_
      (pairwise_rank_of_const _ _ _ hE) ?_
    · intro b hb
      simp only [List.mem_append] at hb
      rcases hb with hb | hb
      · rw [hF b hb]; omega
      · rw [hG b hb]; omega
    refine pairwise_rank_append _ _ _ 5 (fun a ha => le_of_eq (hF a ha)) ?_
      (pairwise_rank_of_const _ _ _ hF) (pairwise_rank_of_const _ _ _ hG)
    intro b hb
    rw [hG b hb]; omega
  · intro t ht
    simp only [htabs]
    exact List.mem_append_right _ ht
  · intro d hd
    simp only [hdrops]
    exact List.mem_append_right _ hd
  · intro c hc
    simp only [hcfgs]
    exact List.mem_append_right _ hc
  · intro sy hsy
    simp only [hsy]

/-- C4, witness: the concrete import of `c4Payload` has a trace sorted by
the actual ranks and restores the payload's standards and tab with their
ids. -/
theorem c4_insert_order_witness :
    List.Pairwise (fun a b => actualInsertRank a ≤ actualInsertRank b)
      [InsEvent.tab 1, InsEvent.standard 1] ∧
    c4Result.standards = c4Payload.standards ∧
    (∀ t ∈ c4Payload.navigationTabs.getD [], t ∈ c4Result.navigationTabs) := by
  have h := c4_insert_order_amended emptyStore c4Payload c4Result
    [InsEvent.tab 1, InsEvent.standard 1] (by decide)
  exact ⟨h.1, h.2.2.2.2.1, h.2.1⟩

/-! ## Claim C1: infrastructure for the export round trip -/

theorem nodup_append_head_ne {α β : Type} (f : α → β) (cur : List α)
    (t : α) (rest : List α)
    (h : ((cur ++ t :: rest).map f).Nodup) : ∀ u ∈ cur, f u ≠ f t := by
  intro u hu he
  rw [List.map_append, List.nodup_append] at h
  rcases h with ⟨-, -, hdisj⟩
  exact hdisj (List.mem_map_of_mem f hu)
    (by rw [he]; exact List.mem_map_of_mem f (List.mem_cons_self t rest))

theorem nodup_shift {α β : Type} (f : α → β) (cur : List α) (t : α)
    (rest : List α) (h : ((cur ++ t :: rest).map f).Nodup) :
    (((cur ++ [t]) ++ rest).map f).Nodup := by
  have : (cur ++ [t]) ++ rest = cur ++ t :: rest := by simp
  rw [this]
  exact h

theorem pairwise_ne_of_map_nodup {α β : Type} (f : α → β) (l : List α)
    (h : (l.map f).Nodup) : l.Pairwise (fun a b => f a ≠ f b) := by
  induction l with
  | nil => constructor
  | cons a t ih =>
    rw [List.map_cons, List.nodup_cons] at h
    refine List.Pairwise.cons ?_ (ih h.2)
    intro b hb he
    exact h.1 (he ▸ List.mem_map_of_mem f hb)

theorem insertLoop_tab_ok (l : List NavigationTab) :
    ∀ cur, ((cur ++ l).map (fun t => t.id)).Nodup →
      ((cur ++ l).map (fun t => t.name)).Nodup →
      insertLoop tabCheck l cur = .ok (cur ++ l) := by
  induction l with
  | nil => intro cur _ _; simp [insertLoop]
  | cons t rest ih =>
    intro cur hid hname
    have hid1 := nodup_append_head_ne _ cur t rest hid
    have hname1 := nodup_append_head_ne _ cur t rest hname
    have hc : tabCheck cur t = none := by
      unfold tabCheck
      have h1 : cur.any (fun u => u.id == t.id) = false := by
        simp only [List.any_eq_false, beq_iff_eq]
        exact hid1
      have h2 : cur.any (fun u => u.name == t.name) = false := by
        simp only [List.any_eq_false, beq_iff_eq]
        exact hname1
      simp [h1, h2]
    unfold insertLoop
    rw [hc]
    have := ih (cur ++ [t]) (nodup_shift _ cur t rest hid)
      (nodup_shift _ cur t rest hname)
    rw [this]
    simp

theorem insertLoop_dropdown_ok (tabs : List NavigationTab)
    (l : List DropdownItem) :
    ∀ cur, ((cur ++ l).map (fun d => d.id)).Nodup →
      (∀ d ∈ l, tabs.any (fun t => t.id == d.tabId) = true) →
      insertLoop (dropdownCheck tabs) l cur = .ok (cur ++ l) := by
  induction l with
  | nil => intro cur _ _; simp [insertLoop]
  | cons d rest ih =>
    intro cur hid hfk
    have hid1 := nodup_append_head_ne _ cur d rest hid
    have hc : dropdownCheck tabs cur d = none := by
      unfold dropdownCheck
      have h1 : cur.any (fun u => u.id == d.id) = false := by
        simp only [List.any_eq_false, beq_iff_eq]
        exact hid1
      have h2 := hfk d (List.mem_cons_self d rest)
      simp [h1, h2]
    unfold insertLoop
    rw [hc]
    have := ih (cur ++ [d]) (nodup_shift _ cur d rest hid)
      (fun x hx => hfk x (List.mem_cons_of_mem d hx))
    rw [this]
    simp

theorem insertLoop_config_ok (tabs : List NavigationTab)
    (drops : List DropdownItem) (l : List TableConfig) :
    ∀ cur, ((cur ++ l).map (fun c => c.id)).Nodup →
      (∀ c ∈ l, tabs.any (fun t => t.id == c.tabId) = true ∧
        drops.any (fun d => d.id == c.dropdownId) = true) →
      insertLoop (configCheck tabs drops) l cur = .ok (cur ++ l) := by
  induction l with
  | nil => intro cur _ _; simp [insertLoop]
  | cons c rest ih =>
    intro cur hid hfk
    have hid1 := nodup_append_head_ne _ cur c rest hid
    have hc : configCheck tabs drops cur c = none := by
      unfold configCheck
      have h1 : cur.any (fun u => u.id == c.id) = false := by
        simp only [List.any_eq_false, beq_iff_eq]
        exact hid1
      rcases hfk c (List.mem_cons_self c rest) with ⟨h2, h3⟩
      simp [h1, h2, h3]
    unfold insertLoop
    rw [hc]
    have := ih (cur ++ [c]) (nodup_shift _ cur c rest hid)
      (fun x hx => hfk x (List.mem_cons_of_mem c hx))
    rw [this]
    simp

theorem insertLoop_standard_ok (l : List Standard) :
    ∀ cur, ((cur ++ l).map (fun st => st.id)).Nodup →
      ((cur ++ l).map (fun st => st.code)).Nodup →
      insertLoop standardCheck l cur = .ok (cur ++ l) := by
  induction l with
  | nil => intro cur _ _; simp [insertLoop]
  | cons st rest ih =>
    intro cur hid hcode
    have hid1 := nodup_append_head_ne _ cur st rest hid
    have hcode1 := nodup_append_head_ne _ cur st rest hcode
    have hc : standardCheck cur st = none := by
      unfold standardCheck
      have h1 : cur.any (fun u => u.id == st.id) = false := by
        simp only [List.any_eq_false, beq_iff_eq]
        exact hid1
      have h2 : cur.any (fun u => u.code == st.code) = false := by
        simp only [List.any_eq_false, beq_iff_eq]
        exact hcode1
      simp [h1, h2]
    unfold insertLoop
    rw [hc]
    have := ih (cur ++ [st]) (nodup_shift _ cur st rest hid)
      (nodup_shift _ cur st rest hcode)
    rw [this]
    simp

theorem insertLoop_row_ok (l : List DbCurriculumRow) :
    ∀ cur, ((cur ++ l).map (fun r => r.id)).Nodup →
      insertLoop rowCheck l cur = .ok (cur ++ l) := by
  induction l with
  | nil => intro cur _; simp [insertLoop]
  | cons r rest ih =>
    intro cur hid
    have hid1 := nodup_append_head_ne _ cur r rest hid
    have hc : rowCheck cur r = none := by
      unfold rowCheck
      have h1 : cur.any (fun u => u.id == r.id) = false := by
        simp only [List.any_eq_false, beq_iff_eq]
        exact hid1
      simp [h1]
    unfold insertLoop
    rw [hc]
    have := ih (cur ++ [r]) (nodup_shift _ cur r rest hid)
    rw [this]
    simp

theorem insertLoop_link_ok (rows : List DbCurriculumRow)
    (stds : List Standard) (l : List CsLink) :
    ∀ cur, (cur ++ l).Nodup →
      (∀ x ∈ l, rows.any (fun r => r.id == x.curriculumId) = true ∧
        stds.any (fun st => st.code == x.standardCode) = true) →
      insertLoop (linkCheck rows stds) l cur = .ok (cur ++ l) := by
  induction l with
  | nil => intro cur _ _; simp [insertLoop]
  | cons x rest ih =>
    intro cur hnd hfk
    have hne : ∀ u ∈ cur, u ≠ x := by
      have := nodup_append_head_ne (fun a => a) cur x rest (by simpa using hnd)
      simpa using this
    have hc : linkCheck rows stds cur x = none := by
      unfold linkCheck
      have h1 : cur.any (fun u => u.curriculumId == x.curriculumId &&
          u.standardCode == x.standardCode) = false := by
        simp only [List.any_eq_false, Bool.and_eq_true, beq_iff_eq, not_and]
        intro u hu he1 he2
        exact hne u hu (by cases u; cases x; simp_all)
      rcases hfk x (List.mem_cons_self x rest) with ⟨h2, h3⟩
      simp [h1, h2, h3]
    unfold insertLoop
    rw [hc]
    have := ih (cur ++ [x]) (by simpa [List.append_assoc] using hnd)
      (fun y hy => hfk y (List.mem_cons_of_mem x hy))
    rw [this]
    simp

theorem validateCurriculumRowsLoop_ok (rows : List ApiCurriculumRow) :
    ∀ ids grades subjects,
      (∀ r ∈ rows, r.id ≠ 0 ∧ isBlank r.grade = false ∧
        isBlank r.subject = false) →
      (∀ r ∈ rows, ∀ i ∈ ids, i ≠ r.id) →
      (rows.map (fun r => r.id)).Nodup →
      ∃ out, validateCurriculumRowsLoop rows ids grades subjects = .ok out := by
  induction rows with
  | nil => intro ids g su _ _ _; exact ⟨_, rfl⟩
  | cons r rest ih =>
    intro ids g su hvals hids hnd
    rcases hvals r (List.mem_cons_self r rest) with ⟨h0, hg, hs⟩
    have hid0 : (r.id == 0) = false := by
      simp [h0]
    have hany : (ids.any (fun i => i == r.id)) = false := by
      simp only [List.any_eq_false, beq_iff_eq]
      exact fun i hi => hids r (List.mem_cons_self r rest) i hi
    rw [List.map_cons, List.nodup_cons] at hnd
    unfold validateCurriculumRowsLoop
    simp only [hid0, hany, hg, hs, Bool.false_eq_true, if_false]
    apply ih
    · exact fun x hx => hvals x (List.mem_cons_of_mem r hx)
    · intro x hx i hi
      rcases List.mem_append.mp hi with hi | hi
      · exact hids x (List.mem_cons_of_mem r hx) i hi
      · rcases List.mem_singleton.mp hi with rfl
        intro he
        exact hnd.1 (he ▸ List.mem_map_of_mem (fun a => a.id) hx)
    · exact hnd.2

theorem validateStandardsLoop_ok (stds : List Standard) :
    ∀ ids,
      (∀ st ∈ stds, st.id ≠ 0 ∧ isBlank st.code = false ∧
        isBlank st.category = false) →
      (∀ st ∈ stds, ∀ i ∈ ids, i ≠ st.id) →
      (stds.map (fun st => st.id)).Nodup →
      ∃ out, validateStandardsLoop stds ids = .ok out := by
  induction stds with
  | nil => intro ids _ _ _; exact ⟨_, rfl⟩
  | cons st rest ih =>
    intro ids hvals hids hnd
    rcases hvals st (List.mem_cons_self st rest) with ⟨h0, hc, hcat⟩
    have hid0 : (st.id == 0) = false := by
      simp [h0]
    have hany : (ids.any (fun i => i == st.id)) = false := by
      simp only [List.any_eq_false, beq_iff_eq]
      exact fun i hi => hids st (List.mem_cons_self st rest) i hi
    rw [List.map_cons, List.nodup_cons] at hnd
    unfold validateStandardsLoop
    simp only [hid0, hany, hc, hcat, Bool.false_eq_true, if_false]
    apply ih
    · exact fun x hx => hvals x (List.mem_cons_of_mem st hx)
    · intro x hx i hi
      rcases List.mem_append.mp hi with hi | hi
      · exact hids x (List.mem_cons_of_mem st hx) i hi
      · rcases List.mem_singleton.mp hi with rfl
        intro he
        exact hnd.1 (he ▸ List.mem_map_of_mem (fun a => a.id) hx)
    · exact hnd.2

/-- Validation succeeds on the export of every exportable store. -/
theorem validate_export_ok (s : Store) (h : Exportable s) :
    (validateImportDataServer (exportFullDatabase s).curriculumRows
      (exportFullDatabase s).standards
      (exportFullDatabase s).metadata).isValid = true := by
  obtain ⟨⟨hrid, hrvals, hrlen⟩, ⟨hsid, hscode, hsvals, hslen⟩, ⟨hlnd, hlfk⟩,
    ⟨htid, htname⟩, ⟨hdid, hdfk⟩, ⟨hcid, hcfk⟩, hsy⟩ := h
  have hexrows : (exportFullDatabase s).curriculumRows =
      s.curriculumRows.map (dbToApi s) := rfl
  have hexstds : (exportFullDatabase s).standards = s.standards := rfl
  have hrowlen : (exportFullDatabase s).curriculumRows.length =
      s.curriculumRows.length := by
    rw [hexrows, List.length_map]
  obtain ⟨out1, hout1⟩ := validateCurriculumRowsLoop_ok
    ((exportFullDatabase s).curriculumRows) [] [] []
    (by
      rw [hexrows]
      intro r hr
      rcases List.mem_map.mp hr with ⟨x, hx, rfl⟩
      rcases hrvals x hx with ⟨h1, h2, h3⟩
      refine ⟨?_, h2, h3⟩
      show x.id ≠ 0
      omega)
    (by intro r _ i hi; cases hi)
    (by
      rw [hexrows, List.map_map]
      simpa using hrid)
  obtain ⟨out2, hout2⟩ := validateStandardsLoop_ok
    ((exportFullDatabase s).standards) []
    (by
      rw [hexstds]
      intro st hst
      rcases hsvals st hst with ⟨h1, h2, h3, -⟩
      exact ⟨by omega, h2, h3⟩)
    (by intro st _ i hi; cases hi)
    (by rw [hexstds]; exact hsid)
  unfold validateImportDataServer
  have hsz1 : ¬ ((exportFullDatabase s).curriculumRows.length > 10000) := by
    rw [hrowlen]; omega
  have hsz2 : ¬ ((exportFullDatabase s).standards.length > 1000) := by
    rw [hexstds]; omega
  rw [if_neg hsz1, if_neg hsz2, hout1, hout2]
  have hm1 : ((exportFullDatabase s).metadata.totalCurriculumEntries ==
      (exportFullDatabase s).curriculumRows.length) = true := by
    simp [exportFullDatabase]
  have hm2 : ((exportFullDatabase s).metadata.totalStandards ==
      (exportFullDatabase s).standards.length) = true := by
    simp [exportFullDatabase]
  simp only [hm1, hm2, Bool.not_true, Bool.false_eq_true, if_false]

/-- The junction rows the export payload regenerates, organized per row. -/
def exportLinks (s : Store) : List CsLink :=
  s.curriculumRows.flatMap
    (fun r => (rowCodes s r.id).map
      (fun c => { curriculumId := r.id, standardCode := c }))

theorem mem_rowCodes (s : Store) (rid : Nat) (c : String) :
    c ∈ rowCodes s rid ↔ CsLink.mk rid c ∈ s.csLinks := by
  unfold rowCodes
  simp only [List.mem_map, List.mem_filter, beq_iff_eq]
  constructor
  · rintro ⟨l, ⟨hl, hid⟩, rfl⟩
    rcases l with ⟨li, lc⟩
    simp only at hid
    rw [← hid]
    exact hl
  · intro hmem
    exact ⟨⟨rid, c⟩, ⟨hmem, rfl⟩, rfl⟩

theorem rowCodes_nodup (s : Store) (hlnd : s.csLinks.Nodup) (rid : Nat) :
    (rowCodes s rid).Nodup := by
  unfold rowCodes
  refine List.Nodup.map_on ?_ (hlnd.filter _)
  intro x hx y hy hcode
  rcases List.mem_filter.mp hx with ⟨-, hx2⟩
  rcases List.mem_filter.mp hy with ⟨-, hy2⟩
  rcases x with ⟨xi, xc⟩
  rcases y with ⟨yi, yc⟩
  simp only [beq_iff_eq] at hx2 hy2
  simp only at hcode
  simp [hx2, hy2, hcode]

theorem exportLinks_nodup (s : Store) (hlnd : s.csLinks.Nodup)
    (hrid : (s.curriculumRows.map (fun r => r.id)).Nodup) :
    (exportLinks s).Nodup := by
  unfold exportLinks
  rw [List.nodup_flatMap]
  constructor
  · intro r _
    refine List.Nodup.map ?_ (rowCodes_nodup s hlnd r.id)
    intro a b hab
    simpa using congrArg CsLink.standardCode hab
  · have hp := pairwise_ne_of_map_nodup (fun r => r.id) s.curriculumRows hrid
    refine hp.imp ?_
    intro a b hne x hxa hxb
    rcases List.mem_map.mp hxa with ⟨c1, -, rfl⟩
    rcases List.mem_map.mp hxb with ⟨c2, -, heq⟩
    exact hne (congrArg CsLink.curriculumId heq).symm

theorem exportLinks_mem (s : Store)
    (hfk : ∀ l ∈ s.csLinks, ∃ r ∈ s.curriculumRows, r.id = l.curriculumId) :
    ∀ x, x ∈ exportLinks s ↔ x ∈ s.csLinks := by
  intro x
  unfold exportLinks
  simp only [List.mem_flatMap, List.mem_map]
  constructor
  · rintro ⟨r, hr, c, hc, rfl⟩
    exact (mem_rowCodes s r.id c).mp hc
  · intro hx
    obtain ⟨r, hr, hid⟩ := hfk x hx
    refine ⟨r, hr, x.standardCode, ?_, ?_⟩
    · rw [mem_rowCodes, hid]
      exact hx
    · rw [hid]

theorem export_rows_map_apiToDb (s : Store) :
    (exportFullDatabase s).curriculumRows.map apiToDb = s.curriculumRows := by
  show (s.curriculumRows.map (dbToApi s)).map apiToDb = s.curriculumRows
  rw [List.map_map]
  have hcomp : apiToDb ∘ dbToApi s = id := funext fun r => rfl
  rw [hcomp, List.map_id]

theorem export_payloadLinks (s : Store)
    (hnc : ∀ st ∈ s.standards, ',' ∉ st.code.data)
    (hstdfk : ∀ l ∈ s.csLinks, ∃ st ∈ s.standards, st.code = l.standardCode) :
    payloadLinks (exportFullDatabase s) = exportLinks s := by
  have hrows : (exportFullDatabase s).curriculumRows =
      s.curriculumRows.map (dbToApi s) := rfl
  unfold payloadLinks exportLinks
  rw [hrows, List.flatMap_map]
  apply List.flatMap_congr
  intro r _
  show (groupConcatSplit (rowCodes s r.id)).map (fun c => CsLink.mk r.id c) =
    (rowCodes s r.id).map (fun c => CsLink.mk r.id c)
  rw [groupConcatSplit_eq_self]
  intro c hc
  obtain ⟨st, hst, hcode⟩ := hstdfk ⟨r.id, c⟩ ((mem_rowCodes s r.id c).mp hc)
  have hcode2 : st.code = c := hcode
  exact hcode2 ▸ hnc st hst

theorem getSchoolYear_of_singleton (s : Store) (y : SchoolYear)
    (h : s.schoolYearRows = [y]) : getSchoolYear s = y := by
  unfold getSchoolYear lastSchoolYearRow
  rw [h]
  rfl

/-- The store a successful import produced, if any. -/
def importedStore (x : Except DbError (Store × List InsEvent)) : Option Store :=
  match x with
  | .ok (s, _) => some s
  | .error _ => none

theorem importedStore_some (x : Except DbError (Store × List InsEvent))
    (S : Store) (hx : importedStore x = some S) :
    ∃ es, x = .ok (S, es) := by
  cases x with
  | error e => cases hx
  | ok p =>
    cases p with
    | mk a b =>
      simp only [importedStore, Option.some.injEq] at hx
      exact ⟨b, by rw [hx]⟩

/-- Importing the export of an exportable store succeeds and rebuilds the
same tables (links regrouped per row). -/
theorem import_export_ok (s : Store) (h : Exportable s) :
    importedStore (importFullDatabase s (exportFullDatabase s)) =
      some (Store.mk s.curriculumRows (exportLinks s) s.standards
        s.navigationTabs s.dropdownItems s.tableConfigs [getSchoolYear s]) := by
  obtain ⟨⟨hrid, hrvals, hrlen⟩, ⟨hsid, hscode, hsvals, hslen⟩, ⟨hlnd, hlfk⟩,
    ⟨htid, htname⟩, ⟨hdid, hdfk⟩, ⟨hcid, hcfk⟩, hsy⟩ := h
  have hstdfk : ∀ l ∈ s.csLinks, ∃ st ∈ s.standards, st.code = l.standardCode :=
    fun l hl => (hlfk l hl).2
  have hrowfk : ∀ l ∈ s.csLinks, ∃ r ∈ s.curriculumRows, r.id = l.curriculumId :=
    fun l hl => (hlfk l hl).1
  have hnc : ∀ st ∈ s.standards, ',' ∉ st.code.data :=
    fun st hst => (hsvals st hst).2.2.2
  have t1 : insertLoop tabCheck s.navigationTabs [] = .ok s.navigationTabs := by
    have := insertLoop_tab_ok s.navigationTabs [] (by simpa using htid)
      (by simpa using htname)
    simpa using this
  have t2 : insertLoop (dropdownCheck s.navigationTabs) s.dropdownItems [] =
      .ok s.dropdownItems := by
    have hfk : ∀ d ∈ s.dropdownItems,
        s.navigationTabs.any (fun t => t.id == d.tabId) = true := by
      intro d hd
      obtain ⟨t, ht, he⟩ := hdfk d hd
      exact List.any_eq_true.mpr ⟨t, ht, beq_iff_eq.mpr he⟩
    have := insertLoop_dropdown_ok s.navigationTabs s.dropdownItems []
      (by simpa using hdid) hfk
    simpa using this
  have t3 : insertLoop (configCheck s.navigationTabs s.dropdownItems)
      s.tableConfigs [] = .ok s.tableConfigs := by
    have hfk : ∀ c ∈ s.tableConfigs,
        s.navigationTabs.any (fun t => t.id == c.tabId) = true ∧
        s.dropdownItems.any (fun d => d.id == c.dropdownId) = true := by
      intro c hc
      obtain ⟨⟨t, ht, he1⟩, ⟨d, hd, he2⟩⟩ := hcfk c hc
      exact ⟨List.any_eq_true.mpr ⟨t, ht, beq_iff_eq.mpr he1⟩,
        List.any_eq_true.mpr ⟨d, hd, beq_iff_eq.mpr he2⟩⟩
    have := insertLoop_config_ok s.navigationTabs s.dropdownItems
      s.tableConfigs [] (by simpa using hcid) hfk
    simpa using this
  have t4 : insertLoop standardCheck s.standards [] = .ok s.standards := by
    have := insertLoop_standard_ok s.standards [] (by simpa using hsid)
      (by simpa using hscode)
    simpa using this
  have t5 : insertLoop rowCheck s.curriculumRows [] = .ok s.curriculumRows := by
    have := insertLoop_row_ok s.curriculumRows [] (by simpa using hrid)
    simpa using this
  have t6 : insertLoop (linkCheck s.curriculumRows s.standards)
      (exportLinks s) [] = .ok (exportLinks s) := by
    have hnd : ([] ++ exportLinks s).Nodup := by
      simpa using exportLinks_nodup s hlnd hrid
    have hfk : ∀ x ∈ exportLinks s,
        s.curriculumRows.any (fun r => r.id == x.curriculumId) = true ∧
        s.standards.any (fun st => st.code == x.standardCode) = true := by
      intro x hx
      have hxl : x ∈ s.csLinks := (exportLinks_mem s hrowfk x).mp hx
      obtain ⟨r, hr, hre⟩ := hrowfk x hxl
      obtain ⟨st, hst, hse⟩ := hstdfk x hxl
      exact ⟨List.any_eq_true.mpr ⟨r, hr, beq_iff_eq.mpr hre⟩,
        List.any_eq_true.mpr ⟨st, hst, beq_iff_eq.mpr hse⟩⟩
    have := insertLoop_link_ok s.curriculumRows s.standards (exportLinks s)
      [] hnd hfk
    simpa using this
  have e1 : (exportFullDatabase s).navigationTabs = some s.navigationTabs := rfl
  have e2 : (exportFullDatabase s).dropdownItems = some s.dropdownItems := rfl
  have e3 : (exportFullDatabase s).tableConfigs = some s.tableConfigs := rfl
  have e4 : (exportFullDatabase s).schoolYear = some (getSchoolYear s) := rfl
  have e5 : (exportFullDatabase s).standards = s.standards := rfl
  unfold importFullDatabase
  simp only [e1, e2, e3, e4, e5, Option.isSome_some, Option.getD_some,
    Bool.true_or, if_true, export_rows_map_apiToDb s,
    export_payloadLinks s hnc hstdfk, t1, t2, t3, t4, t5, t6, importedStore]

/-- A store holding one curriculum row whose `grade` is the empty string
(storable: the `grade` column only declares NOT NULL and the zod insert
schema accepts any string). -/
def c1BadStore : Store :=
  { curriculumRows :=
      [{ id := 1, grade := "", subject := "Math", objectives := "",
         unitPacing := "", assessments := "", materialsAndDifferentiation := "",
         biblical := "", materials := "", differentiator := "",
         tableName := "" }],
    csLinks := [], standards := [], navigationTabs := [], dropdownItems := [],
    tableConfigs := [], schoolYearRows := [sampleYear] }

/-- C1, counterexample: the claim says `validateSnapshot(export(store))`
succeeds for every store state, but the export of a store holding a row with
an empty `grade` fails validation (`grade` must be a non-empty string). -/
theorem c1_export_roundtrip_counterexample :
    (validateImportDataServer (exportFullDatabase c1BadStore).curriculumRows
      (exportFullDatabase c1BadStore).standards
      (exportFullDatabase c1BadStore).metadata).isValid = false := by
  decide

/-- C1, amended: for every store state satisfying the exportability
conditions (`Exportable`: schema invariants, non-blank grades, subjects,
codes and categories, comma-free standard codes, the validator size bounds,
one school-year row), validation of the export succeeds and importing that
same export reproduces a store observationally identical to the exported one
— the same curriculum rows, links, standards, navigation tabs, dropdown
items, table configs and school year, with the same ids and field values. -/
theorem c1_export_roundtrip_amended (s : Store) (h : Exportable s) :
    (validateImportDataServer (exportFullDatabase s).curriculumRows
      (exportFullDatabase s).standards
      (exportFullDatabase s).metadata).isValid = true ∧
    ∃ s2 es, importFullDatabase s (exportFullDatabase s) = .ok (s2, es) ∧
      ObsEq s2 s := by
  refine ⟨validate_export_ok s h, ?_⟩
  obtain ⟨es, himp⟩ := importedStore_some _ _ (import_export_ok s h)
  refine ⟨_, es, himp, ?_⟩
  have hrowfk : ∀ l ∈ s.csLinks, ∃ r ∈ s.curriculumRows, r.id = l.curriculumId :=
    fun l hl => (h.2.2.1.2 l hl).1
  refine ⟨fun x => Iff.rfl, ?_, fun x => Iff.rfl, fun x => Iff.rfl,
    fun x => Iff.rfl, fun x => Iff.rfl, ?_⟩
  · exact exportLinks_mem s hrowfk
  · exact getSchoolYear_of_singleton _ (getSchoolYear s) rfl

/-- C1, witness: the round trip holds on the concrete `sampleStore`. -/
theorem c1_export_roundtrip_witness :
    Exportable sampleStore ∧
    ((validateImportDataServer (exportFullDatabase sampleStore).curriculumRows
      (exportFullDatabase sampleStore).standards
      (exportFullDatabase sampleStore).metadata).isValid = true ∧
    ∃ s2 es, importFullDatabase sampleStore (exportFullDatabase sampleStore) =
      .ok (s2, es) ∧ ObsEq s2 sampleStore) :=
  ⟨by unfold Exportable; decide,
    c1_export_roundtrip_amended sampleStore (by unfold Exportable; decide)⟩
